import Mathlib

/-!
# OutputBinder.hpp: binding of result columns and the fetch loop

A shallow embedding of `src/OutputBinder.hpp`.

* C++ pointers into the four vectors owned by `setResults` are indices into
  those vectors (`none` is the null pointer of a zero-initialised descriptor).
* A `void` function with an output parameter becomes a function from the old
  content of that parameter to its new content together with a `Status`
  saying how the call ended: normally, by a C++ exception, or by undefined
  behaviour (a read through a null pointer or past the end of a buffer).
* Bytes are `Fin 256`; native integers are little-endian two's complement.
-/

namespace OutputBinder

/-! ## Bytes, exceptions, statuses -/

abbrev Byte := Fin 256

abbrev Bytes := List Byte

/-- C++ exceptions that can leave the functions of the header. `MySqlException`
carries its message; `ArgumentCountError` and `FetchError` are the two
`MySqlException`s raised by helpers that are only declared in the header. -/
inductive Exception where
  | MySqlException (what : String)
  | ArgumentCountError (expected actual : Nat)
  | FetchError (diagnostic : String)
  | bad_lexical_cast
  | out_of_range
  deriving DecidableEq, Repr

/-- Line 54: the message thrown when a NULL meets a non-shared_ptr field. -/
def NULL_VALUE_ERROR_MESSAGE : String :=
  "Null value encountered with non-shared_ptr output type"

/-- How a call ended. -/
inductive Status where
  | normal
  | exception (e : Exception)
  | undefined
  deriving DecidableEq, Repr

/-! ## MYSQL_BIND and the column vectors -/

/-- The wire type tags of `mysql.h` the header uses; `MYSQL_TYPE_DECIMAL` is
tag 0, the value a zero-initialised descriptor has. -/
inductive enum_field_types where
  | MYSQL_TYPE_DECIMAL
  | MYSQL_TYPE_TINY
  | MYSQL_TYPE_SHORT
  | MYSQL_TYPE_LONG
  | MYSQL_TYPE_FLOAT
  | MYSQL_TYPE_DOUBLE
  | MYSQL_TYPE_LONGLONG
  | MYSQL_TYPE_STRING
  deriving DecidableEq, Repr

/-- The fields of `MYSQL_BIND` the header reads or writes. `length`, `is_null`
and `buffer` are pointers: indices into `lengths`, `nullFlags` and `buffers`. -/
structure MYSQL_BIND where
  length : Option Nat
  is_null : Option Nat
  buffer : Option Nat
  buffer_length : Nat
  buffer_type : enum_field_types
  is_unsigned : Bool
  deriving DecidableEq, Repr

/-- A value-initialised descriptor, as in `std::vector<MYSQL_BIND> parameters(fieldCount)`. -/
def MYSQL_BIND.zero : MYSQL_BIND :=
  { length := none, is_null := none, buffer := none, buffer_length := 0,
    buffer_type := .MYSQL_TYPE_DECIMAL, is_unsigned := false }

/-- The four vectors local to `setResults` (lines 387-390). -/
structure Columns where
  parameters : List MYSQL_BIND
  buffers : List Bytes
  lengths : List Nat
  nullFlags : List Bool
  deriving DecidableEq, Repr

/-- Dereference: `*bind.is_null`. -/
def Columns.is_null (c : Columns) (bind : MYSQL_BIND) : Option Bool :=
  bind.is_null.bind fun p => c.nullFlags[p]?

/-- Dereference: the bytes `bind.buffer` points to. -/
def Columns.buffer (c : Columns) (bind : MYSQL_BIND) : Option Bytes :=
  bind.buffer.bind fun p => c.buffers[p]?

/-! ## Field types and values -/

/-- The ten types the two specialisation macros are instantiated with
(lines 272-281 and 365-374). -/
inductive Numeric where
  | int8_t | uint8_t | int16_t | uint16_t | int32_t | uint32_t
  | int64_t | uint64_t | float | double
  deriving DecidableEq, Repr

/-- Size of the type in bytes: `sizeof(type)`. -/
def Numeric.sizeof : Numeric → Nat
  | .int8_t => 1 | .uint8_t => 1
  | .int16_t => 2 | .uint16_t => 2
  | .int32_t => 4 | .uint32_t => 4
  | .int64_t => 8 | .uint64_t => 8
  | .float => 4 | .double => 8

/-- The signed integer types, whose values are read in two's complement. -/
def Numeric.isSignedInt : Numeric → Bool
  | .int8_t => true | .int16_t => true | .int32_t => true | .int64_t => true
  | _ => false

/-- A declared field type: an element type of `std::tuple<Args...>`. Raw
pointer types do not compile (the `static_assert`s of lines 247 and 338) and
have no constructor. `other` is a type without specialisation, given by its
value-initialised object and its `boost::lexical_cast`. -/
inductive FieldType (G : Type) where
  | numeric (t : Numeric)
  | string
  | other (init : G) (lexical_cast : Bytes → Option G)
  | shared_ptr (T : FieldType G)

/-- Values of the field types. A numeric value is the integer it denotes, for
`float` and `double` its bit pattern; a `shared_ptr` is empty or owns an object. -/
inductive Value (G : Type) where
  | numeric (v : Int)
  | string (s : Bytes)
  | other (g : G)
  | nullptr
  | make_shared (object : Value G)
  deriving DecidableEq, Repr

/-- The object a default constructor of the field type leaves behind. -/
def FieldType.init {G : Type} : FieldType G → Value G
  | .numeric _ => .numeric 0
  | .string => .string []
  | .other init _ => .other init
  | .shared_ptr _ => .nullptr

/-- Whether the field type is a `std::shared_ptr`, the only nullable kind. -/
def FieldType.nullable {G : Type} : FieldType G → Bool
  | .shared_ptr _ => true
  | _ => false

/-! ## Reading the buffer -/

/-- Little-endian value of a byte sequence. -/
def leValue : Bytes → Nat
  | [] => 0
  | b :: bs => b.val + 256 * leValue bs

/-- The read `*static_cast<const type*>(bind.buffer)`: the first `sizeof(type)`
bytes of the buffer reinterpreted; `none` when the buffer is shorter. -/
def Numeric.reinterpret (t : Numeric) (buf : Bytes) : Option Int :=
  if buf.length < t.sizeof then none
  else
    let u := leValue (buf.take t.sizeof)
    if t.isSignedInt ∧ 2 ^ (8 * t.sizeof - 1) ≤ u then
      some ((u : Int) - 2 ^ (8 * t.sizeof))
    else some (u : Int)

/-- The read of a `const char*` as a C string: the bytes before the first zero
byte; `none` when the buffer holds no zero byte (the read leaves the buffer). -/
def c_str (buf : Bytes) : Option Bytes :=
  if (0 : Byte) ∈ buf then some (buf.takeWhile fun b => b ≠ 0) else none

/-! ## setResult (lines 206-296) -/

/-- Lines 206-218: the primary template, for a type without specialisation. -/
def OutputBinderResultSetter_T.setResult {G : Type} (lexical_cast : Bytes → Option G)
    (value : Value G) (c : Columns) (bind : MYSQL_BIND) : Value G × Status :=
  match c.is_null bind with
  | none => (value, .undefined)
  | some true => (value, .exception (.MySqlException NULL_VALUE_ERROR_MESSAGE))
  | some false =>
    match (c.buffer bind).bind c_str with
    | none => (value, .undefined)
    | some s =>
      match lexical_cast s with
      | none => (value, .exception .bad_lexical_cast)
      | some g => (.other g, .normal)

/-- Lines 222-241: the partial specialisation for `std::shared_ptr<T>`, over
the setter of `T` and the local `T newObject`. -/
def OutputBinderResultSetter_shared_ptr.setResult {G : Type}
    (inner : Value G → Columns → MYSQL_BIND → Value G × Status) (newObject : Value G)
    (value : Value G) (c : Columns) (bind : MYSQL_BIND) : Value G × Status :=
  match c.is_null bind with
  | none => (value, .undefined)
  | some true => (.nullptr, .normal)
  | some false =>
    match inner newObject c bind with
    | (object, .normal) => (.make_shared object, .normal)
    | (_, st) => (value, st)

/-- Lines 257-270: the macro body, for one of the ten numeric types. -/
def OUTPUT_BINDER_ELEMENT_SETTER_SPECIALIZATION.setResult {G : Type} (type : Numeric)
    (value : Value G) (c : Columns) (bind : MYSQL_BIND) : Value G × Status :=
  match c.is_null bind with
  | none => (value, .undefined)
  | some true => (value, .exception (.MySqlException NULL_VALUE_ERROR_MESSAGE))
  | some false =>
    match (c.buffer bind).bind type.reinterpret with
    | none => (value, .undefined)
    | some v => (.numeric v, .normal)

/-- Lines 282-296: the full specialisation for `std::string`. -/
def OutputBinderResultSetter_string.setResult {G : Type}
    (value : Value G) (c : Columns) (bind : MYSQL_BIND) : Value G × Status :=
  match c.is_null bind with
  | none => (value, .undefined)
  | some true => (value, .exception (.MySqlException NULL_VALUE_ERROR_MESSAGE))
  | some false =>
    match (c.buffer bind).bind c_str with
    | none => (value, .undefined)
    | some s => (.string s, .normal)

/-- Template resolution: `OutputBinderResultSetter<T>::setResult` for a field type. -/
def OutputBinderResultSetter.setResult {G : Type} :
    FieldType G → Value G → Columns → MYSQL_BIND → Value G × Status
  | .numeric t, value, c, bind =>
    OUTPUT_BINDER_ELEMENT_SETTER_SPECIALIZATION.setResult t value c bind
  | .string, value, c, bind => OutputBinderResultSetter_string.setResult value c bind
  | .other _ lexical_cast, value, c, bind =>
    OutputBinderResultSetter_T.setResult lexical_cast value c bind
  | .shared_ptr T, value, c, bind =>
    OutputBinderResultSetter_shared_ptr.setResult
      (OutputBinderResultSetter.setResult T) T.init value c bind

/-! ## setParameter (lines 299-374) -/

/-- The call `buffer->resize(n)`: cut, or fill up with zero bytes. -/
def resize (n : Nat) (buffer : Bytes) : Bytes :=
  buffer.take n ++ List.replicate (n - buffer.length) 0

/-- Second macro argument of lines 365-374. -/
def Numeric.mysqlType : Numeric → enum_field_types
  | .int8_t => .MYSQL_TYPE_TINY | .uint8_t => .MYSQL_TYPE_TINY
  | .int16_t => .MYSQL_TYPE_SHORT | .uint16_t => .MYSQL_TYPE_SHORT
  | .int32_t => .MYSQL_TYPE_LONG | .uint32_t => .MYSQL_TYPE_LONG
  | .int64_t => .MYSQL_TYPE_LONGLONG | .uint64_t => .MYSQL_TYPE_LONGLONG
  | .float => .MYSQL_TYPE_FLOAT | .double => .MYSQL_TYPE_DOUBLE

/-- Third macro argument of lines 365-374. -/
def Numeric.isUnsigned : Numeric → Bool
  | .uint8_t => true | .uint16_t => true | .uint32_t => true | .uint64_t => true
  | _ => false

/-- Lines 299-315: the primary template, also used for `std::string`. `data`
is the address `buffer->data()` will have, `isNullFlag` the address passed. -/
def OutputBinderParameterSetter_T.setParameter
    (bind : MYSQL_BIND) (data : Nat) (buffer : Bytes) (isNullFlag : Nat) : MYSQL_BIND × Bytes :=
  let buffer := if buffer.length = 0 then resize 20 buffer else buffer
  ({ bind with
      buffer_type := .MYSQL_TYPE_STRING
      buffer := some data
      is_null := some isNullFlag
      buffer_length := buffer.length }, buffer)

/-- Lines 348-363: the macro body, for one of the ten numeric types. -/
def OUTPUT_BINDER_PARAMETER_SETTER_SPECIALIZATION.setParameter (type : Numeric)
    (bind : MYSQL_BIND) (data : Nat) (buffer : Bytes) (isNullFlag : Nat) : MYSQL_BIND × Bytes :=
  ({ bind with
      buffer_type := type.mysqlType
      buffer := some data
      is_null := some isNullFlag
      is_unsigned := type.isUnsigned }, resize type.sizeof buffer)

/-- Template resolution: `OutputBinderParameterSetter<T>::setParameter`; the
`shared_ptr` case is lines 319-328, which forward to the setter of `T`. -/
def OutputBinderParameterSetter.setParameter {G : Type} :
    FieldType G → MYSQL_BIND → Nat → Bytes → Nat → MYSQL_BIND × Bytes
  | .numeric t, bind, data, buffer, isNullFlag =>
    OUTPUT_BINDER_PARAMETER_SETTER_SPECIALIZATION.setParameter t bind data buffer isNullFlag
  | .string, bind, data, buffer, isNullFlag =>
    OutputBinderParameterSetter_T.setParameter bind data buffer isNullFlag
  | .other _ _, bind, data, buffer, isNullFlag =>
    OutputBinderParameterSetter_T.setParameter bind data buffer isNullFlag
  | .shared_ptr T, bind, data, buffer, isNullFlag =>
    OutputBinderParameterSetter.setParameter T bind data buffer isNullFlag

/-! ## The recursions over the tuple positions (lines 145-203) -/

/-- Lines 145-168: `setResultTuple(tuple, outputParameters, int_<n - 1>)`; the
case `0` is the overload for `int_<-1>`. `at` throws `out_of_range`; a position
outside the tuple does not compile and is left undefined. -/
def setResultTuple {G : Type} (Args : List (FieldType G)) :
    Nat → List (Value G) → Columns → List (Value G) × Status
  | 0, tuple, _ => (tuple, .normal)
  | I + 1, tuple, outputParameters =>
    match Args[I]?, tuple[I]? with
    | some T, some value =>
      match outputParameters.parameters[I]? with
      | none => (tuple, .exception .out_of_range)
      | some bind =>
        match OutputBinderResultSetter.setResult T value outputParameters bind with
        | (v, .normal) => setResultTuple Args I (tuple.set I v) outputParameters
        | (v, st) => (tuple.set I v, st)
    | _, _ => (tuple, .undefined)

/-- Lines 171-203: `bindParameters(tuple, ..., int_<n - 1>)`; the case `0` is
the overload for `int_<-1>`. -/
def bindParameters {G : Type} (tuple : List (FieldType G)) : Nat → Columns → Columns × Status
  | 0, c => (c, .normal)
  | I + 1, c =>
    match tuple[I]? with
    | none => (c, .undefined)
    | some T =>
      match c.parameters[I]?, c.buffers[I]?, c.nullFlags[I]? with
      | some bind, some buffer, some _ =>
        let r := OutputBinderParameterSetter.setParameter T bind I buffer I
        bindParameters tuple I
          { c with parameters := c.parameters.set I r.1, buffers := c.buffers.set I r.2 }
      | _, _, _ => (c, .exception .out_of_range)

/-- Lines 403-408: the loop wiring `parameters.at(i).length = &lengths.at(i)`,
with `k` iterations left, so that `i = fieldCount - k`. -/
def lengthLoop (fieldCount : Nat) : Nat → Columns → Columns × Status
  | 0, c => (c, .normal)
  | k + 1, c =>
    let i := fieldCount - (k + 1)
    match c.parameters[i]?, c.lengths[i]? with
    | some bind, some _ =>
      lengthLoop fieldCount k
        { c with parameters := c.parameters.set i { bind with length := some i } }
    | _, _ => (c, .exception .out_of_range)

/-! ## The statement handle: a model of the client library -/

/-- Status codes of `mysql_stmt_fetch` in `mysql.h`; `0` is a row, `1` an error. -/
def MYSQL_NO_DATA : Int := 100

def MYSQL_DATA_TRUNCATED : Int := 101

/-- One column of a row the server holds: SQL NULL, or the bytes of the value
in the representation of the bound wire type. -/
structure Cell where
  is_null : Bool
  data : Bytes
  deriving DecidableEq, Repr

/-- One answer of `mysql_stmt_fetch`: its status and, for a row, the row. -/
structure Fetch where
  status : Int
  row : List Cell
  deriving DecidableEq, Repr

/-- The prepared statement as `setResults` finds it: its column count, its
diagnostic message, and the answers its fetches will give once executed; after
the last one `mysql_stmt_fetch` answers `MYSQL_NO_DATA`. -/
structure MYSQL_STMT where
  field_count : Nat
  error : String
  answers : List Fetch
  deriving DecidableEq, Repr

/-- Calls on the statement and steps of `setResults`, as they happen. -/
inductive Event where
  | throwIfArgumentCountWrong
  | mysql_stmt_field_count
  | bindParameters
  | bindAndExecuteStatement
  | mysql_stmt_bind_result
  | mysql_stmt_execute
  | mysql_stmt_fetch (status : Int)
  | refetchTruncatedColumns
  | mysql_stmt_fetch_column (column : Nat)
  | setResultTuple
  | push_back
  | mysql_stmt_close
  | throwIfFetchError
  deriving DecidableEq, Repr

/-- What the library and the helpers act on: the row under the cursor of the
statement and the vectors bound to it. -/
structure Cursor where
  row : List Cell
  columns : Columns
  deriving DecidableEq, Repr

/-- What a `setResults` call acts on: the log of events, the result vector of
the caller, and the cursor. -/
structure State (G : Type) where
  trace : List Event
  results : List (List (Value G))
  cursor : Cursor

def State.log {G : Type} (s : State G) (e : Event) : State G :=
  { s with trace := s.trace ++ [e] }

/-- Bytes the library may write for a descriptor: the width of a fixed-width
wire type, `buffer_length` otherwise. -/
def MYSQL_BIND.capacity (bind : MYSQL_BIND) : Nat :=
  match bind.buffer_type with
  | .MYSQL_TYPE_TINY => 1
  | .MYSQL_TYPE_SHORT => 2
  | .MYSQL_TYPE_LONG => 4
  | .MYSQL_TYPE_FLOAT => 4
  | .MYSQL_TYPE_DOUBLE => 8
  | .MYSQL_TYPE_LONGLONG => 8
  | _ => bind.buffer_length

/-- The library copying a value into a buffer from `offset` on: at most
`capacity` bytes, then a zero byte if there is room for one. -/
def store (data : Bytes) (offset capacity : Nat) (buffer : Bytes) : Bytes :=
  let copied := (data.drop offset).take capacity
  let written := if copied.length < capacity then copied ++ [0] else copied
  written ++ buffer.drop written.length

/-- The library delivering one cell through a descriptor: the null flag, and
for a value its length and its bytes; a NULL leaves length and buffer alone. -/
def Columns.receive (c : Columns) (bind : MYSQL_BIND) (cell : Cell) (offset : Nat) : Columns :=
  let c : Columns :=
    match bind.is_null with
    | some p => { c with nullFlags := c.nullFlags.set p cell.is_null }
    | none => c
  if cell.is_null then c
  else
    let c : Columns :=
      match bind.length with
      | some p => { c with lengths := c.lengths.set p cell.data.length }
      | none => c
    match bind.buffer with
    | some p =>
      match c.buffers[p]? with
      | some buffer =>
        { c with buffers := c.buffers.set p (store cell.data offset bind.capacity buffer) }
      | none => c
    | none => c

/-- The library delivering a row through the bound descriptors, which are
taken to be the vector `parameters` as it stands. -/
def Columns.receiveRow (c : Columns) (row : List Cell) : Columns :=
  (c.parameters.zip row).foldl (fun acc p => acc.receive p.1 p.2 0) c

/-- The cursor after a `mysql_stmt_fetch` that gets the answer `a`: a row is
delivered when the status is a row or a truncated row. -/
def Cursor.fetched (k : Cursor) (a : Fetch) : Cursor :=
  if a.status = 0 ∨ a.status = MYSQL_DATA_TRUNCATED then
    { row := a.row, columns := k.columns.receiveRow a.row }
  else k

/-- The call `mysql_stmt_fetch(statement)` of line 435 getting the answer `a`. -/
def State.fetched {G : Type} (s : State G) (a : Fetch) : State G :=
  { s.log (.mysql_stmt_fetch a.status) with cursor := s.cursor.fetched a }

/-- The call `mysql_stmt_close(statement)`. -/
def mysql_stmt_close {G : Type} (s : State G) : State G :=
  s.log .mysql_stmt_close

/-! ## The helpers declared in lines 42-51 -/

/-- Modelled from the spec: `throwIfArgumentCountWrong` is declared in line 42
and defined outside the header. The number of declared fields must equal the
column count of the statement; a violation fails with `ArgumentCountError`
naming expected and actual, and the statement is left untouched. -/
def throwIfArgumentCountWrong {G : Type} (expectedSize : Nat) (statement : MYSQL_STMT)
    (s : State G) : State G × Status :=
  let s := s.log .mysql_stmt_field_count
  if statement.field_count = expectedSize then (s, .normal)
  else (s, .exception (.ArgumentCountError expectedSize statement.field_count))

/-- Modelled from the spec: `bindAndExecuteStatement` is declared in lines
43-45 and defined outside the header. The descriptors are attached to the
statement, the statement is executed, and the first fetch is issued; its status
is returned, with the answers still to come. -/
def bindAndExecuteStatement {G : Type} (statement : MYSQL_STMT) (s : State G) :
    Int × State G × List Fetch :=
  let s := (s.log .mysql_stmt_bind_result).log .mysql_stmt_execute
  match statement.answers with
  | [] => (MYSQL_NO_DATA, s.log (.mysql_stmt_fetch MYSQL_NO_DATA), [])
  | a :: rest => (a.status, s.fetched a, rest)

/-- Modelled from the spec: one column of `refetchTruncatedColumns`. A column
whose reported length exceeds its buffer gets the buffer resized to the
reported length and is fetched again, alone, into the resized buffer. Returns
the cursor and the library calls made. -/
def refetchColumn (r : Cursor × List Event) (i : Nat) : Cursor × List Event :=
  let k := r.1
  match k.columns.parameters[i]?, k.columns.buffers[i]?, k.columns.lengths[i]?, k.row[i]? with
  | some bind, some buffer, some length, some cell =>
    if buffer.length < length then
      let bind := { bind with buffer := some i, buffer_length := length }
      let columns : Columns :=
        { k.columns with
            buffers := k.columns.buffers.set i (resize length buffer)
            parameters := k.columns.parameters.set i bind }
      ({ k with columns := columns.receive bind cell 0 }, r.2 ++ [.mysql_stmt_fetch_column i])
    else r
  | _, _, _, _ => r

/-- Modelled from the spec: `refetchTruncatedColumns` is declared in lines
47-51 and defined outside the header. Every column that was too small is
grown and fetched again; the statement is not executed again. Returns the
cursor and the library calls made. -/
def refetchTruncatedColumns (k : Cursor) : Cursor × List Event :=
  (List.range k.columns.lengths.length).foldl refetchColumn (k, [])

/-- Modelled from the spec: `throwIfFetchError` is declared in line 46 and
defined outside the header. No more rows is success; any other final status is
a database error, which closes the statement and propagates as `FetchError`
with the diagnostic message of the statement. -/
def throwIfFetchError {G : Type} (fetchStatus : Int) (statement : MYSQL_STMT)
    (s : State G) : State G × Status :=
  if fetchStatus = MYSQL_NO_DATA then (s, .normal)
  else (mysql_stmt_close s, .exception (.FetchError statement.error))

/-! ## setResults (lines 379-439) -/

/-- Lines 415-421: the refetch of a truncated row; nothing for another status. -/
def State.refetched {G : Type} (s : State G) (fetchStatus : Int) : State G :=
  if fetchStatus = MYSQL_DATA_TRUNCATED then
    let r := refetchTruncatedColumns s.cursor
    { s with trace := s.trace ++ [.refetchTruncatedColumns] ++ r.2, cursor := r.1 }
  else s

/-- Lines 423-428: a fresh `rowTuple` filled by `setResultTuple` from the
columns, counting down from `int_<sizeof...(Args) - 1>`. -/
def assemble {G : Type} (Args : List (FieldType G)) (columns : Columns) :
    List (Value G) × Status :=
  setResultTuple Args Args.length (Args.map FieldType.init) columns

/-- Lines 415-434: one pass through the body of the `while` loop, up to and
including `results->push_back(rowTuple)`. -/
def iteration {G : Type} (Args : List (FieldType G)) (fetchStatus : Int) (s : State G) :
    State G × Status :=
  let s := (s.refetched fetchStatus).log .setResultTuple
  match assemble Args s.cursor.columns with
  | (rowTuple, .normal) =>
    ({ s with results := s.results ++ [rowTuple] }.log .push_back, .normal)
  | (_, .exception e) => (mysql_stmt_close s, .exception e)
  | (_, .undefined) => (s, .undefined)

/-- Lines 414-436: the `while` loop, entered with the status of the last fetch
and the answers the statement still holds. Returns the status the loop ended
on. A fetch on the exhausted statement answers `MYSQL_NO_DATA`, which ends it. -/
def whileLoop {G : Type} (Args : List (FieldType G)) :
    List Fetch → Int → State G → Int × State G × Status
  | answers, fetchStatus, s =>
    if fetchStatus = 0 ∨ fetchStatus = MYSQL_DATA_TRUNCATED then
      match iteration Args fetchStatus s with
      | (s, .normal) =>
        match answers with
        | [] => (MYSQL_NO_DATA, s.log (.mysql_stmt_fetch MYSQL_NO_DATA), .normal)
        | a :: rest => whileLoop Args rest a.status (s.fetched a)
      | (s, st) => (fetchStatus, s, st)
    else (fetchStatus, s, .normal)

/-- The vectors of lines 387-390, value-initialised with `fieldCount` entries. -/
def Columns.allocate (fieldCount : Nat) : Columns :=
  { parameters := List.replicate fieldCount MYSQL_BIND.zero
    buffers := List.replicate fieldCount []
    lengths := List.replicate fieldCount 0
    nullFlags := List.replicate fieldCount false }

/-- Lines 387-408: the vectors allocated, described by `bindParameters` and
wired to their length slots. -/
def describe {G : Type} (Args : List (FieldType G)) (fieldCount : Nat) : Columns × Status :=
  match bindParameters Args Args.length (Columns.allocate fieldCount) with
  | (columns, .normal) => lengthLoop fieldCount fieldCount columns
  | (columns, st) => (columns, st)

/-- Lines 379-439: `setResults<Args...>(statement, results)`. Returns the
final state, whose `results` is the vector of the caller after the call, and
how the call ended. -/
def setResults {G : Type} (Args : List (FieldType G)) (statement : MYSQL_STMT)
    (results : List (List (Value G))) : State G × Status :=
  let s : State G :=
    { trace := [.throwIfArgumentCountWrong], results := results,
      cursor := { row := [], columns := Columns.allocate 0 } }
  match throwIfArgumentCountWrong Args.length statement s with
  | (s, .normal) =>
    let s := (s.log .mysql_stmt_field_count).log .bindParameters
    match describe Args statement.field_count with
    | (columns, .normal) =>
      match bindAndExecuteStatement statement
          ({ s with cursor := { s.cursor with columns := columns } }.log
            .bindAndExecuteStatement) with
      | (fetchStatus, s, answers) =>
        match whileLoop Args answers fetchStatus s with
        | (fetchStatus, s, .normal) =>
          throwIfFetchError fetchStatus statement (s.log .throwIfFetchError)
        | (_, s, st) => (s, st)
    | (columns, st) => ({ s with cursor := { s.cursor with columns := columns } }, st)
  | (s, st) => (s, st)

/-! ## What a call is expected to do -/

/-- The condition of the `while` of line 414: the fetch delivered a row. -/
def isRow (fetchStatus : Int) : Prop :=
  fetchStatus = 0 ∨ fetchStatus = MYSQL_DATA_TRUNCATED

instance : DecidablePred isRow := fun fetchStatus =>
  inferInstanceAs (Decidable (fetchStatus = 0 ∨ fetchStatus = MYSQL_DATA_TRUNCATED))

/-- The cursor from which a row fetched with the given status is assembled:
after the refetch when the status was truncated. -/
def Cursor.refetched (k : Cursor) (fetchStatus : Int) : Cursor :=
  if fetchStatus = MYSQL_DATA_TRUNCATED then (refetchTruncatedColumns k).1 else k

/-- The column states from which the rows of a statement are assembled, in
fetch order, for a loop entered with the status of the last fetch: one per
fetch that delivered a row, up to the first fetch that did not. -/
def rowColumns : List Fetch → Int → Cursor → List Columns
  | answers, fetchStatus, k =>
    if fetchStatus = 0 ∨ fetchStatus = MYSQL_DATA_TRUNCATED then
      (k.refetched fetchStatus).columns ::
        (match answers with
         | [] => []
         | a :: rest => rowColumns rest a.status ((k.refetched fetchStatus).fetched a))
    else []

/-- The column states from which the rows of a statement are assembled when
it is executed with the given vectors bound. -/
def fetchedColumns (columns : Columns) : List Fetch → List Columns
  | [] => []
  | a :: rest => rowColumns rest a.status (Cursor.fetched { row := [], columns := columns } a)

/-- What happens between a fetch with the given status and the assembly of
its row: nothing after a plain row; after a truncated one a single call of
`refetchTruncatedColumns` with the column refetches it makes. -/
inductive Refetch : Int → List Event → Prop
  | row : Refetch 0 []
  | truncated (columns : List Nat) :
    Refetch MYSQL_DATA_TRUNCATED
      (.refetchTruncatedColumns :: columns.map Event.mysql_stmt_fetch_column)

/-- The events of the `while` loop entered with the status of the last fetch,
and how the loop ends. A status that is no row ends the loop. A row is
refetched if truncated and assembled; then it is appended and the next fetch
issued, or its assembly throws and the statement is closed, or is undefined. -/
inductive LoopTrace : Int → List Event → Status → Prop
  | exit {fetchStatus : Int} (h : ¬ isRow fetchStatus) : LoopTrace fetchStatus [] .normal
  | appended {fetchStatus next : Int} {pre t : List Event} {out : Status}
    (h : Refetch fetchStatus pre) (rest : LoopTrace next t out) :
    LoopTrace fetchStatus
      (pre ++ [.setResultTuple, .push_back, .mysql_stmt_fetch next] ++ t) out
  | thrown {fetchStatus : Int} {pre : List Event} (e : Exception) (h : Refetch fetchStatus pre) :
    LoopTrace fetchStatus (pre ++ [.setResultTuple, .mysql_stmt_close]) (.exception e)
  | undefined {fetchStatus : Int} {pre : List Event} (h : Refetch fetchStatus pre) :
    LoopTrace fetchStatus (pre ++ [.setResultTuple]) .undefined

/-- The events of a call up to and including the first fetch. -/
def setupTrace (fetchStatus : Int) : List Event :=
  [.throwIfArgumentCountWrong, .mysql_stmt_field_count, .mysql_stmt_field_count,
   .bindParameters, .bindAndExecuteStatement, .mysql_stmt_bind_result, .mysql_stmt_execute,
   .mysql_stmt_fetch fetchStatus]

/-- Events the `while` loop can log; the others belong to the setup of a call
or to its end. -/
def Event.inLoop : Event → Bool
  | .refetchTruncatedColumns => true
  | .mysql_stmt_fetch_column _ => true
  | .setResultTuple => true
  | .push_back => true
  | .mysql_stmt_fetch _ => true
  | .mysql_stmt_close => true
  | _ => false

/-- The errors a setter throws when it cannot decode a column: the null-value
error and the failed `boost::lexical_cast`. -/
def Exception.isConversion : Exception → Bool
  | .MySqlException what => what = NULL_VALUE_ERROR_MESSAGE
  | .bad_lexical_cast => true
  | _ => false

/-- The ten numeric types in the order of lines 365-374. -/
def Numeric.all : List Numeric :=
  [.int8_t, .uint8_t, .int16_t, .uint16_t, .int32_t, .uint32_t, .int64_t, .uint64_t,
   .float, .double]

/-- The `size` little-endian bytes of a natural number. -/
def leBytes : Nat → Nat → Bytes
  | 0, _ => []
  | size + 1, u => ⟨u % 256, Nat.mod_lt u (by decide)⟩ :: leBytes size (u / 256)

/-- The values a numeric type can hold: the two's complement range of its
width for a signed integer type, the unsigned range of its width otherwise,
where a value of `float` or `double` is its bit pattern. -/
def Numeric.representable (t : Numeric) (v : Int) : Prop :=
  if t.isSignedInt then -(2 ^ (8 * t.sizeof - 1)) ≤ v ∧ v < 2 ^ (8 * t.sizeof - 1)
  else 0 ≤ v ∧ v < 2 ^ (8 * t.sizeof)

instance (t : Numeric) (v : Int) : Decidable (t.representable v) := by
  unfold Numeric.representable
  exact inferInstance

/-- The native byte representation of a value of a numeric type, as the
library writes it into a buffer: `sizeof(type)` bytes, little-endian, a
negative value in two's complement. -/
def Numeric.bytes (t : Numeric) (v : Int) : Bytes :=
  leBytes t.sizeof (v % 2 ^ (8 * t.sizeof)).toNat

/-- How the setter of the type declared at position `j` ends on descriptor `j`
of the given columns; `none` when there is no such position. -/
def columnStatus {G : Type} (Args : List (FieldType G)) (c : Columns) (j : Nat) :
    Option Status :=
  match Args[j]?, c.parameters[j]? with
  | some T, some bind => some (OutputBinderResultSetter.setResult T T.init c bind).2
  | _, _ => none

/-- The statuses of the `mysql_stmt_fetch` calls among the events, in order. -/
def fetchStatuses : List Event → List Int
  | [] => []
  | .mysql_stmt_fetch st :: t => st :: fetchStatuses t
  | _ :: t => fetchStatuses t

/-- The status the loop stops on, given the statuses of the fetches to come:
the first that is no row, or `MYSQL_NO_DATA` of the fetch after the last. -/
def stopStatus : List Int → Int
  | [] => MYSQL_NO_DATA
  | st :: rest => if isRow st then stopStatus rest else st

/-! ## Sample inputs -/

/-- Three columns: an `int32_t`, a `std::string` and a `std::shared_ptr<double>`. -/
def sampleArgs : List (FieldType Unit) :=
  [.numeric .int32_t, .string, .shared_ptr (.numeric .double)]

/-- A descriptor wired to slot 0 of the vectors. -/
def sampleBind : MYSQL_BIND :=
  { MYSQL_BIND.zero with length := some 0, is_null := some 0, buffer := some 0 }

/-- One column whose null flag is set and whose buffer holds stale bytes. -/
def sampleNullColumn : Columns :=
  { parameters := [sampleBind], buffers := [[7, 7, 7, 7, 7, 7, 7, 7]], lengths := [8],
    nullFlags := [true] }

/-- One column holding the little-endian bytes of 42 followed by zero bytes. -/
def sampleValueColumn : Columns :=
  { parameters := [sampleBind], buffers := [[42, 0, 0, 0, 0, 0, 0, 0]], lengths := [8],
    nullFlags := [false] }

/-- The bytes of the text hello. -/
def hello : Bytes := [104, 101, 108, 108, 111]

/-- Two rows for `sampleArgs`: 42, hello, NULL and then -7, abc, the double 3.14. -/
def sampleStatement : MYSQL_STMT :=
  { field_count := 3, error := "", answers :=
      [⟨0, [⟨false, [42, 0, 0, 0]⟩, ⟨false, hello⟩, ⟨true, []⟩]⟩,
       ⟨0, [⟨false, [249, 255, 255, 255]⟩, ⟨false, [97, 98, 99]⟩,
            ⟨false, [31, 133, 235, 81, 184, 30, 9, 64]⟩]⟩] }

/-- The rows `sampleStatement` decodes to. -/
def sampleRows : List (List (Value Unit)) :=
  [[.numeric 42, .string hello, .nullptr],
   [.numeric (-7), .string [97, 98, 99], .make_shared (.numeric 4614253070214989087)]]

/-- As `sampleStatement`, but the `int32_t` column of the second row is NULL. -/
def sampleNullStatement : MYSQL_STMT :=
  { field_count := 3, error := "", answers :=
      [⟨0, [⟨false, [42, 0, 0, 0]⟩, ⟨false, hello⟩, ⟨true, []⟩]⟩,
       ⟨0, [⟨true, []⟩, ⟨false, [97, 98, 99]⟩,
            ⟨false, [31, 133, 235, 81, 184, 30, 9, 64]⟩]⟩] }

/-- One row, then a fetch that reports a database error. -/
def sampleErrorStatement : MYSQL_STMT :=
  { field_count := 3, error := "Lost connection", answers :=
      [⟨0, [⟨false, [42, 0, 0, 0]⟩, ⟨false, hello⟩, ⟨true, []⟩]⟩, ⟨1, []⟩] }

/-- A text of 25 bytes: abc, a zero byte, then twenty-one letters. -/
def sampleText : Bytes :=
  [97, 98, 99, 0, 100, 101, 102, 103, 104, 105, 106, 107, 108, 109, 110, 111, 112, 113, 114,
   115, 116, 117, 118, 119, 120]

/-- One text column; the middle row of three is longer than the 20 bytes of
the initial buffer and its fetch reports truncation. -/
def sampleTruncatedStatement : MYSQL_STMT :=
  { field_count := 1, error := "", answers :=
      [⟨0, [⟨false, hello⟩]⟩, ⟨MYSQL_DATA_TRUNCATED, [⟨false, sampleText⟩]⟩,
       ⟨0, [⟨false, [120, 121, 122]⟩]⟩] }

/-- One text column and one row, `sampleText`, whose fetch reports truncation. -/
def sampleCutStatement : MYSQL_STMT :=
  { field_count := 1, error := "",
    answers := [⟨MYSQL_DATA_TRUNCATED, [⟨false, sampleText⟩]⟩] }

/-- A sample `boost::lexical_cast`: one decimal digit parses to its value. -/
def sampleDigit : Bytes → Option Nat
  | [d] => if 48 ≤ d.val ∧ d.val ≤ 57 then some (d.val - 48) else none
  | _ => none

/-- A descriptor of a text column wired to slot 0, with 20 bytes of buffer. -/
def sampleTextBind : MYSQL_BIND :=
  { sampleBind with buffer_type := .MYSQL_TYPE_STRING, buffer_length := 20 }

/-- A text column as the library leaves it after a fetch: 20 bytes of buffer
holding the five bytes a, b, zero, c, d and their terminator, reported length 5. -/
def sampleZeroColumn : Columns :=
  { parameters := [sampleTextBind],
    buffers := [[97, 98, 0, 99, 100, 0, 0, 0, 0, 0, 0, 0, 0, 0, 0, 0, 0, 0, 0, 0]],
    lengths := [5], nullFlags := [false] }

/-- A text column whose value fills its 20 bytes of buffer: twenty letters,
reported length 20, no room for a terminator. -/
def sampleFullColumn : Columns :=
  { parameters := [sampleTextBind],
    buffers := [[97, 98, 99, 100, 101, 102, 103, 104, 105, 106, 107, 108, 109, 110, 111, 112,
      113, 114, 115, 116]],
    lengths := [20], nullFlags := [false] }

/-- One text column and one row holding the five bytes a, b, zero, c, d. -/
def sampleZeroStatement : MYSQL_STMT :=
  { field_count := 1, error := "", answers := [⟨0, [⟨false, [97, 98, 0, 99, 100]⟩]⟩] }

/-- One text column and one row holding twenty letters. -/
def sampleFullStatement : MYSQL_STMT :=
  { field_count := 1, error := "",
    answers := [⟨0, [⟨false, [97, 98, 99, 100, 101, 102, 103, 104, 105, 106, 107, 108, 109,
      110, 111, 112, 113, 114, 115, 116]⟩]⟩] }

/-- A text column holding the digit 7 and its terminator. -/
def sampleDigitColumn : Columns :=
  { parameters := [sampleTextBind], buffers := [[55, 0, 0, 0]], lengths := [1],
    nullFlags := [false] }

/-- One column holding the four bytes of the least `int32_t`. -/
def sampleMinColumn : Columns :=
  { parameters := [sampleBind], buffers := [[0, 0, 0, 128]], lengths := [4],
    nullFlags := [false] }

/-- A sample `boost::lexical_cast` that parses nothing. -/
def sampleNoParse : Bytes → Option Unit := fun _ => none

/-- Two declared fields: a type without specialisation that never parses, and
an `int32_t`. -/
def sampleFailingArgs : List (FieldType Unit) :=
  [.other () sampleNoParse, .numeric .int32_t]

/-- A descriptor of an `int32_t` column wired to slot 1. -/
def sampleIntBind : MYSQL_BIND :=
  { length := some 1, is_null := some 1, buffer := some 1, buffer_length := 0,
    buffer_type := .MYSQL_TYPE_LONG, is_unsigned := false }

/-- Two columns for `sampleFailingArgs`: the text x, and a NULL. -/
def sampleFailingColumns : Columns :=
  { parameters := [sampleTextBind, sampleIntBind],
    buffers := [[120, 0], [0, 0, 0, 0]], lengths := [1, 4], nullFlags := [false, true] }

/-- A sample `boost::lexical_cast` that parses every text, to its length. -/
def sampleLength : Bytes → Option Nat := fun text => some text.length

/-- One text column and one row holding the three bytes 7, zero, x. -/
def sampleDigitZeroStatement : MYSQL_STMT :=
  { field_count := 1, error := "", answers := [⟨0, [⟨false, [55, 0, 120]⟩]⟩] }

/-- A text column as the library leaves it after fetching the three bytes 7,
zero, x into 20 bytes of buffer: the value, its terminator, reported length 3. -/
def sampleDigitZeroColumn : Columns :=
  { parameters := [sampleTextBind],
    buffers := [[55, 0, 120, 0, 0, 0, 0, 0, 0, 0, 0, 0, 0, 0, 0, 0, 0, 0, 0, 0]],
    lengths := [3], nullFlags := [false] }

/-! ## Properties of setResult -/

/-- The target a setter is given does not matter for how it ends, nor for what
it stores when it returns. -/
theorem setResult_target {G : Type} (T : FieldType G) (v w : Value G) (c : Columns)
    (bind : MYSQL_BIND) :
    (OutputBinderResultSetter.setResult T v c bind).2
        = (OutputBinderResultSetter.setResult T w c bind).2 ∧
      ((OutputBinderResultSetter.setResult T v c bind).2 = .normal →
        (OutputBinderResultSetter.setResult T v c bind).1
          = (OutputBinderResultSetter.setResult T w c bind).1) := by
  cases T with
  | numeric t =>
    simp only [OutputBinderResultSetter.setResult,
      OUTPUT_BINDER_ELEMENT_SETTER_SPECIALIZATION.setResult]
    split <;> try simp
    split <;> simp
  | string =>
    simp only [OutputBinderResultSetter.setResult, OutputBinderResultSetter_string.setResult]
    split <;> try simp
    split <;> simp
  | other init lc =>
    simp only [OutputBinderResultSetter.setResult, OutputBinderResultSetter_T.setResult]
    split <;> try simp
    split <;> try simp
    split <;> simp
  | shared_ptr T =>
    simp only [OutputBinderResultSetter.setResult, OutputBinderResultSetter_shared_ptr.setResult]
    split <;> try simp
    split <;> simp_all

/-- C1: for every wrapped type `T` and every descriptor, the `shared_ptr`
setter stores the empty pointer when the null flag is set, whatever the setter
of `T` is (it is not run); when the flag is clear it ends as the setter of `T`
ends on the same descriptor, storing a pointer to what that setter decodes
when it returns and leaving the field alone when it fails. -/
theorem shared_ptr_setResult_absent_or_present {G : Type} (T : FieldType G)
    (value : Value G) (c : Columns) (bind : MYSQL_BIND) :
    (c.is_null bind = some true →
      OutputBinderResultSetter.setResult (.shared_ptr T) value c bind = (.nullptr, .normal) ∧
      ∀ inner newObject,
        OutputBinderResultSetter_shared_ptr.setResult inner newObject value c bind
          = (.nullptr, .normal)) ∧
    (c.is_null bind = some false →
      ∀ target : Value G,
        (OutputBinderResultSetter.setResult (.shared_ptr T) value c bind).2
          = (OutputBinderResultSetter.setResult T target c bind).2 ∧
        ((OutputBinderResultSetter.setResult T target c bind).2 = .normal →
          (OutputBinderResultSetter.setResult (.shared_ptr T) value c bind).1
            = .make_shared (OutputBinderResultSetter.setResult T target c bind).1) ∧
        ((OutputBinderResultSetter.setResult T target c bind).2 ≠ .normal →
          (OutputBinderResultSetter.setResult (.shared_ptr T) value c bind).1 = value)) := by
  refine ⟨fun h => ⟨?_, fun inner newObject => ?_⟩, fun h target => ?_⟩
  · simp [OutputBinderResultSetter.setResult, OutputBinderResultSetter_shared_ptr.setResult, h]
  · simp [OutputBinderResultSetter_shared_ptr.setResult, h]
  · have ht := setResult_target T T.init target c bind
    rw [← ht.1]
    simp only [OutputBinderResultSetter.setResult, OutputBinderResultSetter_shared_ptr.setResult, h]
    refine ⟨?_, ?_, ?_⟩
    · split <;> simp_all
    · intro hn
      rw [← ht.2 hn]
      split <;> simp_all
    · intro hn
      split <;> simp_all

/-- C1 at sample columns: a set flag over stale bytes gives the empty pointer,
a clear flag over the bytes of 42 gives a pointer to the `int32_t` 42. -/
theorem shared_ptr_setResult_absent_or_present_witness :
    sampleNullColumn.is_null sampleBind = some true ∧
    OutputBinderResultSetter.setResult (.shared_ptr (.numeric .int32_t)) (.numeric (5 : Int))
        sampleNullColumn sampleBind = ((.nullptr : Value Unit), .normal) ∧
    sampleValueColumn.is_null sampleBind = some false ∧
    (OutputBinderResultSetter.setResult (.shared_ptr (.numeric .int32_t)) (.nullptr : Value Unit)
        sampleValueColumn sampleBind).1 = .make_shared (.numeric 42) :=
  ⟨by decide,
   ((shared_ptr_setResult_absent_or_present (.numeric .int32_t) (.numeric (5 : Int))
      sampleNullColumn sampleBind).1 (by decide)).1,
   by decide,
   (((shared_ptr_setResult_absent_or_present (.numeric .int32_t) (.nullptr : Value Unit)
      sampleValueColumn sampleBind).2 (by decide) .nullptr).2.1 (by decide)).trans (by decide)⟩

/-- C2: for every field type that is not a `shared_ptr` (a numeric type,
`std::string`, a type without specialisation) and every descriptor whose null
flag is set, the setter throws `MySqlException(NULL_VALUE_ERROR_MESSAGE)`
whatever the buffers hold, and the output field keeps the content it had. -/
theorem setResult_null_throws {G : Type} (T : FieldType G) (hT : T.nullable = false)
    (value : Value G) (c : Columns) (bind : MYSQL_BIND) (h : c.is_null bind = some true) :
    OutputBinderResultSetter.setResult T value c bind
      = (value, .exception (.MySqlException NULL_VALUE_ERROR_MESSAGE)) := by
  cases T with
  | numeric t =>
    simp [OutputBinderResultSetter.setResult,
      OUTPUT_BINDER_ELEMENT_SETTER_SPECIALIZATION.setResult, h]
  | string =>
    simp [OutputBinderResultSetter.setResult, OutputBinderResultSetter_string.setResult, h]
  | other init lc =>
    simp [OutputBinderResultSetter.setResult, OutputBinderResultSetter_T.setResult, h]
  | shared_ptr T => simp [FieldType.nullable] at hT

/-- C2 at a sample column: a NULL met by an `int32_t` field holding 5. -/
theorem setResult_null_throws_witness :
    OutputBinderResultSetter.setResult (.numeric .int32_t) (.numeric (5 : Int))
        sampleNullColumn sampleBind
      = ((.numeric 5 : Value Unit), .exception (.MySqlException NULL_VALUE_ERROR_MESSAGE)) :=
  setResult_null_throws (.numeric .int32_t) rfl (.numeric 5) sampleNullColumn sampleBind
    (by decide)

/-! ## The fetch loop -/

theorem refetchColumn_calls (l : List Nat) (r : Cursor × List Event) :
    ∃ columns : List Nat,
      (l.foldl refetchColumn r).2 = r.2 ++ columns.map Event.mysql_stmt_fetch_column := by
  induction l generalizing r with
  | nil => exact ⟨[], by simp⟩
  | cons i l ih =>
    obtain ⟨columns, h⟩ := ih (refetchColumn r i)
    have hstep : (refetchColumn r i).2 = r.2 ∨
        (refetchColumn r i).2 = r.2 ++ [Event.mysql_stmt_fetch_column i] := by
      unfold refetchColumn
      dsimp only
      split
      · split
        · exact Or.inr rfl
        · exact Or.inl rfl
      · exact Or.inl rfl
    rcases hstep with h1 | h1
    · exact ⟨columns, by rw [List.foldl_cons, h, h1]⟩
    · exact ⟨i :: columns, by rw [List.foldl_cons, h, h1]; simp⟩

theorem refetched_trace {G : Type} (s : State G) (fetchStatus : Int)
    (h : isRow fetchStatus) :
    ∃ pre, (s.refetched fetchStatus).trace = s.trace ++ pre ∧ Refetch fetchStatus pre := by
  unfold State.refetched
  by_cases ht : fetchStatus = MYSQL_DATA_TRUNCATED
  · obtain ⟨columns, hc⟩ :=
      refetchColumn_calls (List.range s.cursor.columns.lengths.length) (s.cursor, [])
    refine ⟨.refetchTruncatedColumns :: columns.map Event.mysql_stmt_fetch_column, ?_, ?_⟩
    · simp only [ht, if_true, refetchTruncatedColumns, hc]
      simp
    · rw [ht]
      exact Refetch.truncated columns
  · rcases h with h0 | h1
    · refine ⟨[], ?_, ?_⟩
      · simp [ht]
      · rw [h0]
        exact Refetch.row
    · exact absurd h1 ht

theorem refetched_cursor {G : Type} (s : State G) (fetchStatus : Int) :
    (s.refetched fetchStatus).cursor = s.cursor.refetched fetchStatus := by
  unfold State.refetched Cursor.refetched
  split <;> rfl

theorem refetched_results {G : Type} (s : State G) (fetchStatus : Int) :
    (s.refetched fetchStatus).results = s.results := by
  unfold State.refetched
  split <;> rfl

theorem whileLoop_nil {G : Type} (Args : List (FieldType G)) (fetchStatus : Int) (s : State G) :
    whileLoop Args [] fetchStatus s =
      if isRow fetchStatus then
        match iteration Args fetchStatus s with
        | (s, .normal) => (MYSQL_NO_DATA, s.log (.mysql_stmt_fetch MYSQL_NO_DATA), .normal)
        | (s, st) => (fetchStatus, s, st)
      else (fetchStatus, s, .normal) := by
  rw [whileLoop]
  rfl

theorem whileLoop_cons {G : Type} (Args : List (FieldType G)) (a : Fetch) (rest : List Fetch)
    (fetchStatus : Int) (s : State G) :
    whileLoop Args (a :: rest) fetchStatus s =
      if isRow fetchStatus then
        match iteration Args fetchStatus s with
        | (s, .normal) => whileLoop Args rest a.status (s.fetched a)
        | (s, st) => (fetchStatus, s, st)
      else (fetchStatus, s, .normal) := by
  rw [whileLoop]
  rfl

theorem iteration_eq {G : Type} (Args : List (FieldType G)) (fetchStatus : Int) (s : State G) :
    iteration Args fetchStatus s =
      match assemble Args (s.cursor.refetched fetchStatus).columns with
      | (rowTuple, .normal) =>
        ({ trace := (s.refetched fetchStatus).trace ++ [.setResultTuple, .push_back],
           results := s.results ++ [rowTuple],
           cursor := s.cursor.refetched fetchStatus }, .normal)
      | (_, .exception e) =>
        ({ trace := (s.refetched fetchStatus).trace ++ [.setResultTuple, .mysql_stmt_close],
           results := s.results,
           cursor := s.cursor.refetched fetchStatus }, .exception e)
      | (_, .undefined) =>
        ({ trace := (s.refetched fetchStatus).trace ++ [.setResultTuple],
           results := s.results,
           cursor := s.cursor.refetched fetchStatus }, .undefined) := by
  unfold iteration
  simp only [State.log, mysql_stmt_close, refetched_cursor, refetched_results]
  split <;> simp_all
theorem whileLoop_trace {G : Type} (Args : List (FieldType G)) (answers : List Fetch) :
    ∀ (fetchStatus : Int) (s : State G), ∃ t,
      (whileLoop Args answers fetchStatus s).2.1.trace = s.trace ++ t ∧
      LoopTrace fetchStatus t (whileLoop Args answers fetchStatus s).2.2 := by
  induction answers with
  | nil =>
    intro fetchStatus s
    rw [whileLoop_nil, iteration_eq]
    by_cases hrow : isRow fetchStatus
    · obtain ⟨pre, hpre, hre⟩ := refetched_trace s fetchStatus hrow
      simp only [hrow, if_true, hpre]
      rcases hasm : assemble Args (s.cursor.refetched fetchStatus).columns with ⟨row, _ | e | _⟩
      · refine ⟨pre ++ [.setResultTuple, .push_back, .mysql_stmt_fetch MYSQL_NO_DATA] ++ [], ?_, ?_⟩
        · simp [State.log]
        · exact LoopTrace.appended hre (LoopTrace.exit (by decide))
      · exact ⟨pre ++ [.setResultTuple, .mysql_stmt_close], by simp, LoopTrace.thrown e hre⟩
      · exact ⟨pre ++ [.setResultTuple], by simp, LoopTrace.undefined hre⟩
    · exact ⟨[], by simp [hrow], by simpa [hrow] using LoopTrace.exit hrow⟩
  | cons a rest ih =>
    intro fetchStatus s
    rw [whileLoop_cons, iteration_eq]
    by_cases hrow : isRow fetchStatus
    · obtain ⟨pre, hpre, hre⟩ := refetched_trace s fetchStatus hrow
      simp only [hrow, if_true, hpre]
      rcases hasm : assemble Args (s.cursor.refetched fetchStatus).columns with ⟨row, _ | e | _⟩
      · simp only
        obtain ⟨t, ht, hl⟩ := ih a.status
          (State.fetched
            { trace := s.trace ++ pre ++ [.setResultTuple, .push_back],
              results := s.results ++ [row],
              cursor := s.cursor.refetched fetchStatus } a)
        refine ⟨pre ++ [.setResultTuple, .push_back, .mysql_stmt_fetch a.status] ++ t, ?_, ?_⟩
        · rw [ht]
          simp [State.fetched, State.log]
        · exact LoopTrace.appended hre hl
      · exact ⟨pre ++ [.setResultTuple, .mysql_stmt_close], by simp, LoopTrace.thrown e hre⟩
      · exact ⟨pre ++ [.setResultTuple], by simp, LoopTrace.undefined hre⟩
    · exact ⟨[], by simp [hrow], by simpa [hrow] using LoopTrace.exit hrow⟩

theorem whileLoop_exit {G : Type} (Args : List (FieldType G)) (answers : List Fetch) :
    ∀ (fetchStatus : Int) (s : State G),
      (whileLoop Args answers fetchStatus s).2.2 = .normal →
      ¬ isRow (whileLoop Args answers fetchStatus s).1 := by
  induction answers with
  | nil =>
    intro fetchStatus s
    rw [whileLoop_nil, iteration_eq]
    by_cases hrow : isRow fetchStatus
    · simp only [hrow, if_true]
      rcases hasm : assemble Args (s.cursor.refetched fetchStatus).columns with ⟨row, _ | e | _⟩
      · intro _
        show ¬ isRow MYSQL_NO_DATA
        decide
      · simp
      · simp
    · simp [hrow]
  | cons a rest ih =>
    intro fetchStatus s
    rw [whileLoop_cons, iteration_eq]
    by_cases hrow : isRow fetchStatus
    · simp only [hrow, if_true]
      rcases hasm : assemble Args (s.cursor.refetched fetchStatus).columns with ⟨row, _ | e | _⟩
      · exact ih _ _
      · simp
      · simp
    · simp [hrow]

theorem whileLoop_results {G : Type} (Args : List (FieldType G)) (answers : List Fetch) :
    ∀ (fetchStatus : Int) (s : State G),
      (whileLoop Args answers fetchStatus s).2.2 = .normal →
      (whileLoop Args answers fetchStatus s).2.1.results
          = s.results ++ (rowColumns answers fetchStatus s.cursor).map
              (fun c => (assemble Args c).1) ∧
        ∀ c ∈ rowColumns answers fetchStatus s.cursor, (assemble Args c).2 = .normal := by
  induction answers with
  | nil =>
    intro fetchStatus s
    rw [whileLoop_nil, iteration_eq, rowColumns]
    by_cases hrow : isRow fetchStatus
    · have hrow2 : fetchStatus = 0 ∨ fetchStatus = MYSQL_DATA_TRUNCATED := hrow
      simp only [hrow, hrow2, if_true]
      rcases hasm : assemble Args (s.cursor.refetched fetchStatus).columns with ⟨row, _ | e | _⟩
      · intro _
        simp [State.log, hasm]
      · simp
      · simp
    · have hrow2 : ¬ (fetchStatus = 0 ∨ fetchStatus = MYSQL_DATA_TRUNCATED) := hrow
      simp [hrow, hrow2]
  | cons a rest ih =>
    intro fetchStatus s
    rw [whileLoop_cons, iteration_eq, rowColumns]
    by_cases hrow : isRow fetchStatus
    · have hrow2 : fetchStatus = 0 ∨ fetchStatus = MYSQL_DATA_TRUNCATED := hrow
      simp only [hrow, hrow2, if_true]
      rcases hasm : assemble Args (s.cursor.refetched fetchStatus).columns with ⟨row, _ | e | _⟩
      · intro h
        obtain ⟨h1, h2⟩ := ih _ _ h
        refine ⟨?_, ?_⟩
        · rw [h1]
          simp [State.fetched, State.log, hasm]
        · intro c hc
          rcases List.mem_cons.1 hc with hc | hc
          · rw [hc, hasm]
          · exact h2 c (by simpa [State.fetched, State.log] using hc)
      · simp
      · simp
    · have hrow2 : ¬ (fetchStatus = 0 ∨ fetchStatus = MYSQL_DATA_TRUNCATED) := hrow
      simp [hrow, hrow2]

theorem whileLoop_results_thrown {G : Type} (Args : List (FieldType G)) (answers : List Fetch) :
    ∀ (fetchStatus : Int) (s : State G) (e : Exception),
      (whileLoop Args answers fetchStatus s).2.2 = .exception e →
      ∃ pre c post,
        rowColumns answers fetchStatus s.cursor = pre ++ c :: post ∧
        (∀ x ∈ pre, (assemble Args x).2 = .normal) ∧
        (assemble Args c).2 = .exception e ∧
        (whileLoop Args answers fetchStatus s).2.1.results
          = s.results ++ pre.map (fun c => (assemble Args c).1) := by
  induction answers with
  | nil =>
    intro fetchStatus s e
    rw [whileLoop_nil, iteration_eq, rowColumns]
    by_cases hrow : isRow fetchStatus
    · have hrow2 : fetchStatus = 0 ∨ fetchStatus = MYSQL_DATA_TRUNCATED := hrow
      simp only [hrow, hrow2, if_true]
      rcases hasm : assemble Args (s.cursor.refetched fetchStatus).columns with ⟨row, _ | e2 | _⟩
      · simp
      · intro h
        have he : e2 = e := by simpa using h
        exact ⟨[], _, [], rfl, by simp, by rw [hasm, he], by simp⟩
      · simp
    · have hrow2 : ¬ (fetchStatus = 0 ∨ fetchStatus = MYSQL_DATA_TRUNCATED) := hrow
      simp [hrow, hrow2]
  | cons a rest ih =>
    intro fetchStatus s e
    rw [whileLoop_cons, iteration_eq, rowColumns]
    by_cases hrow : isRow fetchStatus
    · have hrow2 : fetchStatus = 0 ∨ fetchStatus = MYSQL_DATA_TRUNCATED := hrow
      simp only [hrow, hrow2, if_true]
      rcases hasm : assemble Args (s.cursor.refetched fetchStatus).columns with ⟨row, _ | e2 | _⟩
      · intro h
        obtain ⟨pre, c, post, h1, h2, h3, h4⟩ := ih _ _ e h
        refine ⟨(s.cursor.refetched fetchStatus).columns :: pre, c, post, ?_, ?_, h3, ?_⟩
        · simp only [State.fetched, State.log] at h1
          simp [h1]
        · intro x hx
          rcases List.mem_cons.1 hx with hx | hx
          · rw [hx, hasm]
          · exact h2 x hx
        · rw [h4]
          simp [State.fetched, State.log, hasm]
      · intro h
        have he : e2 = e := by simpa using h
        exact ⟨[], _, _, rfl, by simp, by rw [hasm, he], by simp⟩
      · simp
    · have hrow2 : ¬ (fetchStatus = 0 ∨ fetchStatus = MYSQL_DATA_TRUNCATED) := hrow
      simp [hrow, hrow2]

theorem rowColumns_length (answers : List Fetch) :
    ∀ (fetchStatus : Int) (k : Cursor),
      (rowColumns answers fetchStatus k).length
        = ((fetchStatus :: answers.map Fetch.status).takeWhile
            fun st => decide (isRow st)).length := by
  induction answers with
  | nil =>
    intro fetchStatus k
    rw [rowColumns]
    by_cases hrow : isRow fetchStatus
    · have hrow2 : fetchStatus = 0 ∨ fetchStatus = MYSQL_DATA_TRUNCATED := hrow
      simp [hrow, hrow2, List.takeWhile]
    · have hrow2 : ¬ (fetchStatus = 0 ∨ fetchStatus = MYSQL_DATA_TRUNCATED) := hrow
      simp [hrow, hrow2, List.takeWhile]
  | cons a rest ih =>
    intro fetchStatus k
    rw [rowColumns]
    by_cases hrow : isRow fetchStatus
    · have hrow2 : fetchStatus = 0 ∨ fetchStatus = MYSQL_DATA_TRUNCATED := hrow
      simp only [hrow2, if_true, List.length_cons, ih, List.map_cons]
      rw [List.takeWhile_cons (a := fetchStatus)]
      simp [hrow]
    · have hrow2 : ¬ (fetchStatus = 0 ∨ fetchStatus = MYSQL_DATA_TRUNCATED) := hrow
      simp [hrow, hrow2, List.takeWhile]

theorem bindParameters_ok {G : Type} (tuple : List (FieldType G)) :
    ∀ (n : Nat) (c : Columns), n ≤ tuple.length → n ≤ c.parameters.length →
      n ≤ c.buffers.length → n ≤ c.nullFlags.length →
      ∃ d, bindParameters tuple n c = (d, .normal) ∧
        d.parameters.length = c.parameters.length ∧ d.lengths = c.lengths := by
  intro n
  induction n with
  | zero =>
    intro c _ _ _ _
    exact ⟨c, rfl, rfl, rfl⟩
  | succ I ih =>
    intro c h1 h2 h3 h4
    rw [bindParameters]
    have e1 : tuple[I]? = some tuple[I] := List.getElem?_eq_getElem (by omega)
    have e2 : c.parameters[I]? = some c.parameters[I] := List.getElem?_eq_getElem (by omega)
    have e3 : c.buffers[I]? = some c.buffers[I] := List.getElem?_eq_getElem (by omega)
    have e4 : c.nullFlags[I]? = some c.nullFlags[I] := List.getElem?_eq_getElem (by omega)
    simp only [e1, e2, e3, e4]
    obtain ⟨d, hd, hp, hl⟩ := ih
      { c with
          parameters := c.parameters.set I
            (OutputBinderParameterSetter.setParameter tuple[I] c.parameters[I] I c.buffers[I] I).1
          buffers := c.buffers.set I
            (OutputBinderParameterSetter.setParameter tuple[I] c.parameters[I] I c.buffers[I] I).2 }
      (by omega) (by simp; omega) (by simp; omega) (by simp; omega)
    exact ⟨d, hd, by simpa using hp, hl⟩

theorem lengthLoop_ok (fieldCount : Nat) :
    ∀ (k : Nat) (c : Columns), k ≤ fieldCount → c.parameters.length = fieldCount →
      c.lengths.length = fieldCount →
      ∃ d, lengthLoop fieldCount k c = (d, .normal) := by
  intro k
  induction k with
  | zero =>
    intro c _ _ _
    exact ⟨c, rfl⟩
  | succ k ih =>
    intro c h1 h2 h3
    rw [lengthLoop]
    have e1 : c.parameters[fieldCount - (k + 1)]? = some c.parameters[fieldCount - (k + 1)] :=
      List.getElem?_eq_getElem (by omega)
    have e2 : c.lengths[fieldCount - (k + 1)]? = some c.lengths[fieldCount - (k + 1)] :=
      List.getElem?_eq_getElem (by omega)
    simp only [e1, e2]
    exact ih _ (by omega) (by simp; omega) (by simpa using h3)

theorem describe_ok {G : Type} (Args : List (FieldType G)) :
    ∃ columns, describe Args Args.length = (columns, .normal) := by
  obtain ⟨d, hd, hp, hl⟩ := bindParameters_ok Args Args.length (Columns.allocate Args.length)
    (Nat.le_refl _) (by simp [Columns.allocate]) (by simp [Columns.allocate])
    (by simp [Columns.allocate])
  obtain ⟨d2, hd2⟩ := lengthLoop_ok Args.length Args.length d (Nat.le_refl _)
    (by rw [hp]; simp [Columns.allocate]) (by rw [hl]; simp [Columns.allocate])
  exact ⟨d2, by simp [describe, hd, hd2]⟩

theorem setResults_count_wrong {G : Type} (Args : List (FieldType G)) (statement : MYSQL_STMT)
    (results : List (List (Value G))) (h : statement.field_count ≠ Args.length) :
    setResults Args statement results =
      ({ trace := [.throwIfArgumentCountWrong, .mysql_stmt_field_count],
         results := results,
         cursor := { row := [], columns := Columns.allocate 0 } },
       .exception (.ArgumentCountError Args.length statement.field_count)) := by
  simp [setResults, throwIfArgumentCountWrong, h, State.log]

theorem setResults_run {G : Type} (Args : List (FieldType G)) (statement : MYSQL_STMT)
    (results : List (List (Value G))) (h : statement.field_count = Args.length) :
    ∃ (fetchStatus : Int) (k : Cursor) (rest : List Fetch),
      setResults Args statement results =
        (match whileLoop Args rest fetchStatus
            { trace := setupTrace fetchStatus, results := results, cursor := k } with
         | (fetchStatus, s, .normal) =>
           throwIfFetchError fetchStatus statement (s.log .throwIfFetchError)
         | (_, s, st) => (s, st)) ∧
      rowColumns rest fetchStatus k
        = fetchedColumns (describe Args statement.field_count).1 statement.answers ∧
      (fetchStatus :: rest.map Fetch.status).takeWhile (fun st => decide (isRow st))
        = (statement.answers.map Fetch.status).takeWhile (fun st => decide (isRow st)) := by
  obtain ⟨columns, hc⟩ := describe_ok Args
  rw [h]
  cases ha : statement.answers with
  | nil =>
    refine ⟨MYSQL_NO_DATA, { row := [], columns := columns }, [], ?_, ?_, ?_⟩
    · simp [setResults, throwIfArgumentCountWrong, h, hc, bindAndExecuteStatement, ha,
        State.log, setupTrace]
    · rw [rowColumns]
      simp [fetchedColumns, MYSQL_NO_DATA, MYSQL_DATA_TRUNCATED]
    · simp [List.takeWhile, isRow, MYSQL_NO_DATA, MYSQL_DATA_TRUNCATED]
  | cons a rest =>
    refine ⟨a.status, Cursor.fetched { row := [], columns := columns } a, rest, ?_, ?_, ?_⟩
    · simp [setResults, throwIfArgumentCountWrong, h, hc, bindAndExecuteStatement, ha,
        State.log, setupTrace, State.fetched]
    · simp [fetchedColumns, hc]
    · simp


theorem Refetch_mem {fetchStatus : Int} {pre : List Event} (h : Refetch fetchStatus pre) :
    ∀ e ∈ pre, e = .refetchTruncatedColumns ∨ ∃ i, e = .mysql_stmt_fetch_column i := by
  cases h with
  | row => simp
  | truncated columns =>
    intro e he
    rcases List.mem_cons.1 he with he | he
    · exact Or.inl he
    · obtain ⟨i, _, hi⟩ := List.mem_map.1 he
      exact Or.inr ⟨i, hi.symm⟩

theorem LoopTrace_mem {fetchStatus : Int} {t : List Event} {out : Status}
    (h : LoopTrace fetchStatus t out) : ∀ e ∈ t, e.inLoop = true := by
  induction h with
  | exit _ => simp
  | appended hpre _ ih =>
    intro e he
    simp only [List.mem_append, List.mem_cons, List.mem_singleton, List.not_mem_nil,
      or_false] at he
    rcases he with (he | he | he | he) | he
    · rcases Refetch_mem hpre e he with h1 | ⟨i, h1⟩ <;> rw [h1] <;> rfl
    · rw [he]; rfl
    · rw [he]; rfl
    · rw [he]; rfl
    · exact ih e he
  | thrown _ hpre =>
    intro e he
    simp only [List.mem_append, List.mem_cons, List.mem_singleton, List.not_mem_nil,
      or_false] at he
    rcases he with he | he | he
    · rcases Refetch_mem hpre e he with h1 | ⟨i, h1⟩ <;> rw [h1] <;> rfl
    · rw [he]; rfl
    · rw [he]; rfl
  | undefined hpre =>
    intro e he
    simp only [List.mem_append, List.mem_singleton] at he
    rcases he with he | he
    · rcases Refetch_mem hpre e he with h1 | ⟨i, h1⟩ <;> rw [h1] <;> rfl
    · rw [he]; rfl

theorem LoopTrace_no_close {fetchStatus : Int} {t : List Event} {out : Status}
    (h : LoopTrace fetchStatus t out) : out = .normal → Event.mysql_stmt_close ∉ t := by
  induction h with
  | exit _ => simp
  | appended hpre _ ih =>
    intro ho hmem
    simp only [List.mem_append, List.mem_cons, List.mem_singleton, List.not_mem_nil,
      or_false] at hmem
    rcases hmem with (hm | hm | hm | hm) | hm
    · rcases Refetch_mem hpre _ hm with h1 | ⟨i, h1⟩ <;> cases h1
    · cases hm
    · cases hm
    · cases hm
    · exact ih ho hm
  | thrown _ _ => intro ho; cases ho
  | undefined _ => intro ho; cases ho

theorem LoopTrace_thrown {fetchStatus : Int} {t : List Event} {out : Status}
    (h : LoopTrace fetchStatus t out) : ∀ e, out = .exception e →
      ∃ t0, t = t0 ++ [.setResultTuple, .mysql_stmt_close] ∧ Event.mysql_stmt_close ∉ t0 := by
  induction h with
  | exit _ => intro e ho; cases ho
  | @appended fetchStatus next pre t out hpre _ ih =>
    intro e ho
    obtain ⟨t0, ht, hn⟩ := ih e ho
    refine ⟨pre ++ [.setResultTuple, .push_back, .mysql_stmt_fetch next] ++ t0, ?_, ?_⟩
    · rw [ht]; simp
    · intro hmem
      simp only [List.mem_append, List.mem_cons, List.mem_singleton, List.not_mem_nil,
        or_false] at hmem
      rcases hmem with (hm | hm | hm | hm) | hm
      · rcases Refetch_mem hpre _ hm with h1 | ⟨i, h1⟩ <;> cases h1
      · cases hm
      · cases hm
      · cases hm
      · exact hn hm
  | @thrown fetchStatus pre e2 hpre =>
    intro e _
    refine ⟨pre, rfl, ?_⟩
    intro hm
    rcases Refetch_mem hpre _ hm with h1 | ⟨i, h1⟩ <;> cases h1
  | undefined _ => intro e ho; cases ho


/-- A call that ends in a conversion error got past the count check, and its
loop ended in that error. -/
theorem setResults_conversion_error {G : Type} (Args : List (FieldType G))
    (statement : MYSQL_STMT) (results : List (List (Value G))) (e : Exception)
    (he : e.isConversion = true) (h : (setResults Args statement results).2 = .exception e) :
    ∃ (fetchStatus : Int) (k : Cursor) (rest : List Fetch) (fs : Int) (s : State G),
      whileLoop Args rest fetchStatus
          { trace := setupTrace fetchStatus, results := results, cursor := k }
        = (fs, s, .exception e) ∧
      setResults Args statement results = (s, .exception e) ∧
      rowColumns rest fetchStatus k
        = fetchedColumns (describe Args statement.field_count).1 statement.answers := by
  by_cases hc : statement.field_count = Args.length
  · obtain ⟨st0, k, rest, hrun, hcols, _⟩ := setResults_run Args statement results hc
    rw [hrun] at h
    rcases hw : whileLoop Args rest st0
      { trace := setupTrace st0, results := results, cursor := k } with ⟨fs, s, st⟩
    rw [hw] at h
    cases st with
    | normal =>
      simp only [throwIfFetchError] at h
      split at h
      · simp at h
      · simp only [Status.exception.injEq] at h
        rw [← h] at he
        simp [Exception.isConversion] at he
    | exception e2 =>
      simp only [Status.exception.injEq] at h
      rw [h] at hw
      refine ⟨st0, k, rest, fs, s, hw, ?_, hcols⟩
      rw [hrun, hw]
    | undefined => simp at h
  · rw [setResults_count_wrong Args statement results hc] at h
    simp only [Status.exception.injEq] at h
    rw [← h] at he
    simp [Exception.isConversion] at he

/-! ## Properties of setResults -/

/-- C3: for every `setResults` call that returns normally, the result vector
afterwards is its content before the call followed by the rows assembled from
the column states of the successive row fetches, in fetch order: one row for
each fetch that answered row or truncated before the first other answer, each
assembled without error, none reordered, duplicated or dropped. -/
theorem setResults_appends_rows_in_fetch_order {G : Type} (Args : List (FieldType G))
    (statement : MYSQL_STMT) (results : List (List (Value G)))
    (h : (setResults Args statement results).2 = .normal) :
    (setResults Args statement results).1.results
        = results ++
          (fetchedColumns (describe Args statement.field_count).1 statement.answers).map
            (fun c => (assemble Args c).1) ∧
      (∀ c ∈ fetchedColumns (describe Args statement.field_count).1 statement.answers,
        (assemble Args c).2 = .normal) ∧
      (fetchedColumns (describe Args statement.field_count).1 statement.answers).length
        = ((statement.answers.map Fetch.status).takeWhile
            fun st => decide (isRow st)).length := by
  by_cases hc : statement.field_count = Args.length
  · obtain ⟨st0, k, rest, hrun, hcols, hcount⟩ := setResults_run Args statement results hc
    have hlen := rowColumns_length rest st0 k
    have hres := whileLoop_results Args rest st0
      { trace := setupTrace st0, results := results, cursor := k }
    rw [hrun] at h ⊢
    rw [← hcols, ← hcount, hlen]
    rcases hw : whileLoop Args rest st0
      { trace := setupTrace st0, results := results, cursor := k } with ⟨fs, s, st⟩
    rw [hw] at h hres
    cases st with
    | normal =>
      obtain ⟨h1, h2⟩ := hres rfl
      refine ⟨?_, h2, rfl⟩
      simp only [throwIfFetchError]
      split
      · simpa [State.log] using h1
      · rename_i hne
        simp [throwIfFetchError, hne] at h
    | exception e => simp at h
    | undefined => simp at h
  · rw [setResults_count_wrong Args statement results hc] at h
    simp at h

/-- C3 at a sample statement of three rows, the middle one truncated, and a
result vector that holds one row before the call. -/
theorem setResults_appends_rows_in_fetch_order_witness :
    (setResults ([.string] : List (FieldType Unit)) sampleTruncatedStatement
        [[.string hello]]).2 = .normal ∧
    (setResults ([.string] : List (FieldType Unit)) sampleTruncatedStatement
        [[.string hello]]).1.results
      = [[.string hello]] ++
        [[.string hello], [.string [97, 98, 99]], [.string [120, 121, 122]]] :=
  ⟨by decide!,
   (setResults_appends_rows_in_fetch_order ([.string] : List (FieldType Unit))
      sampleTruncatedStatement [[.string hello]] (by decide!)).1.trans (by decide!)⟩

/-- C4 at a truncated text holding a zero byte: the refetch, made once for the
column, leaves all 25 bytes in the buffer and 25 as the reported length, and
the text assembled for the row is the three bytes before the zero byte. -/
theorem setResults_truncated_text_cut :
    sampleText.length = 25 ∧
    (setResults ([.string] : List (FieldType Unit)) sampleCutStatement []).2 = .normal ∧
    (setResults ([.string] : List (FieldType Unit)) sampleCutStatement []).1.trace.count
      (.mysql_stmt_fetch_column 0) = 1 ∧
    (setResults ([.string] : List (FieldType Unit)) sampleCutStatement
      []).1.cursor.columns.buffers = [sampleText] ∧
    (setResults ([.string] : List (FieldType Unit)) sampleCutStatement
      []).1.cursor.columns.lengths = [25] ∧
    (setResults ([.string] : List (FieldType Unit)) sampleCutStatement []).1.results
      = [[.string [97, 98, 99]]] := by
  decide!

/-- C5 fails as stated: a call whose argument-count check fails, here three
declared fields against a statement of two columns, ends without having bound
or executed the statement at all. -/
theorem setResults_executes_once_counterexample :
    (setResults sampleArgs { sampleStatement with field_count := 2 } []).2
        = .exception (.ArgumentCountError 3 2) ∧
      (setResults sampleArgs { sampleStatement with field_count := 2 } []).1.trace.count
        .mysql_stmt_bind_result = 0 ∧
      (setResults sampleArgs { sampleStatement with field_count := 2 } []).1.trace.count
        .mysql_stmt_execute = 0 := by
  decide!

/-- C5 as amended: in every `setResults` call whose argument-count check of
line 384 passes, the trace is the setup, in which the statement is bound,
executed and fetched once, then the events of the loop, then the final status
check. The loop events follow `LoopTrace`: after a fetch that answered
truncated comes one `refetchTruncatedColumns` with its column refetches, then
the assembly of that row, then its `push_back`, then the next fetch; after a
fetch that answered row the assembly comes at once. Binding and executing
occur once in all, never again for a truncation. -/
theorem setResults_trace {G : Type} (Args : List (FieldType G))
    (statement : MYSQL_STMT) (results : List (List (Value G)))
    (h : statement.field_count = Args.length) :
    ∃ (fetchStatus : Int) (t tail : List Event) (out : Status),
      (setResults Args statement results).1.trace = setupTrace fetchStatus ++ t ++ tail ∧
      LoopTrace fetchStatus t out ∧
      (tail = [] ∨ tail = [.throwIfFetchError] ∨
        tail = [.throwIfFetchError, .mysql_stmt_close]) ∧
      (setResults Args statement results).1.trace.count .mysql_stmt_bind_result = 1 ∧
      (setResults Args statement results).1.trace.count .mysql_stmt_execute = 1 ∧
      (setResults Args statement results).1.trace.count .bindAndExecuteStatement = 1 := by
  obtain ⟨st0, k, rest, hrun, _, _⟩ := setResults_run Args statement results h
  obtain ⟨t, ht, hl⟩ := whileLoop_trace Args rest st0
    { trace := setupTrace st0, results := results, cursor := k }
  have hmem := LoopTrace_mem hl
  have hcount : ∀ e : Event, e.inLoop = false → t.count e = 0 := by
    intro e he
    apply List.count_eq_zero.2
    intro hm
    rw [hmem e hm] at he
    cases he
  have c1 := hcount .mysql_stmt_bind_result rfl
  have c2 := hcount .mysql_stmt_execute rfl
  have c3 := hcount .bindAndExecuteStatement rfl
  rw [hrun]
  rcases hw : whileLoop Args rest st0
    { trace := setupTrace st0, results := results, cursor := k } with ⟨fs, s, st⟩
  rw [hw] at ht hl
  simp only at ht hl
  cases st with
  | normal =>
    simp only [throwIfFetchError]
    split
    · refine ⟨st0, t, [.throwIfFetchError], _, ?_, hl, Or.inr (Or.inl rfl), ?_, ?_, ?_⟩
      · simp [State.log, ht]
      · simp [State.log, ht, List.count_append, c1, setupTrace]
      · simp [State.log, ht, List.count_append, c2, setupTrace]
      · simp [State.log, ht, List.count_append, c3, setupTrace]
    · refine ⟨st0, t, [.throwIfFetchError, .mysql_stmt_close], _, ?_, hl, Or.inr (Or.inr rfl),
        ?_, ?_, ?_⟩
      · simp [State.log, mysql_stmt_close, ht]
      · simp [State.log, mysql_stmt_close, ht, List.count_append, c1, setupTrace]
      · simp [State.log, mysql_stmt_close, ht, List.count_append, c2, setupTrace]
      · simp [State.log, mysql_stmt_close, ht, List.count_append, c3, setupTrace]
  | exception e =>
    refine ⟨st0, t, [], _, ?_, hl, Or.inl rfl, ?_, ?_, ?_⟩
    · simp [ht]
    · simp [ht, List.count_append, c1, setupTrace]
    · simp [ht, List.count_append, c2, setupTrace]
    · simp [ht, List.count_append, c3, setupTrace]
  | undefined =>
    refine ⟨st0, t, [], _, ?_, hl, Or.inl rfl, ?_, ?_, ?_⟩
    · simp [ht]
    · simp [ht, List.count_append, c1, setupTrace]
    · simp [ht, List.count_append, c2, setupTrace]
    · simp [ht, List.count_append, c3, setupTrace]

/-- C5 as amended, at the sample statement whose middle row is truncated. -/
theorem setResults_trace_witness :
    ∃ (fetchStatus : Int) (t tail : List Event) (out : Status),
      (setResults ([.string] : List (FieldType Unit)) sampleTruncatedStatement []).1.trace
        = setupTrace fetchStatus ++ t ++ tail ∧
      LoopTrace fetchStatus t out ∧
      (tail = [] ∨ tail = [.throwIfFetchError] ∨
        tail = [.throwIfFetchError, .mysql_stmt_close]) ∧
      (setResults ([.string] : List (FieldType Unit)) sampleTruncatedStatement []).1.trace.count
        .mysql_stmt_bind_result = 1 ∧
      (setResults ([.string] : List (FieldType Unit)) sampleTruncatedStatement []).1.trace.count
        .mysql_stmt_execute = 1 ∧
      (setResults ([.string] : List (FieldType Unit)) sampleTruncatedStatement []).1.trace.count
        .bindAndExecuteStatement = 1 :=
  setResults_trace ([.string] : List (FieldType Unit)) sampleTruncatedStatement [] rfl

/-- C6: when the statement reports a column count other than the number of
declared fields, `setResults` fails with the argument-count error naming both
numbers, having made no call but the count check and its query of the column
count: no descriptor is built or bound, nothing is executed or fetched, and
the result vector is as it was. -/
theorem setResults_count_mismatch {G : Type} (Args : List (FieldType G))
    (statement : MYSQL_STMT) (results : List (List (Value G)))
    (h : statement.field_count ≠ Args.length) :
    (setResults Args statement results).2
        = .exception (.ArgumentCountError Args.length statement.field_count) ∧
      (setResults Args statement results).1.trace
        = [.throwIfArgumentCountWrong, .mysql_stmt_field_count] ∧
      (setResults Args statement results).1.cursor.columns = Columns.allocate 0 ∧
      (setResults Args statement results).1.results = results := by
  rw [setResults_count_wrong Args statement results h]
  exact ⟨rfl, rfl, rfl, rfl⟩

/-- C6 at a sample: three declared fields against a statement of two columns. -/
theorem setResults_count_mismatch_witness :
    (setResults sampleArgs { sampleStatement with field_count := 2 } sampleRows).2
        = .exception (.ArgumentCountError 3 2) ∧
      (setResults sampleArgs { sampleStatement with field_count := 2 } sampleRows).1.trace
        = [.throwIfArgumentCountWrong, .mysql_stmt_field_count] ∧
      (setResults sampleArgs { sampleStatement with field_count := 2 }
        sampleRows).1.cursor.columns = Columns.allocate 0 ∧
      (setResults sampleArgs { sampleStatement with field_count := 2 } sampleRows).1.results
        = sampleRows :=
  setResults_count_mismatch sampleArgs { sampleStatement with field_count := 2 } sampleRows
    (by decide)

/-- C7 fails as stated: at the sample statement whose second row holds a NULL
for the `int32_t` field the call ends in the null-value error, and the first
row, assembled in this call, is in the result vector afterwards. -/
theorem setResults_discards_rows_counterexample :
    (setResults sampleArgs sampleNullStatement []).2
        = .exception (.MySqlException NULL_VALUE_ERROR_MESSAGE) ∧
      (setResults sampleArgs sampleNullStatement []).1.results
        = [[.numeric 42, .string hello, .nullptr]] := by
  decide!

/-- C7 as amended: when a `setResults` call ends in a conversion error, the
error is that of assembling one fetched row; that row is not appended, and the
result vector afterwards is its content before the call followed by the rows
assembled from the fetches before it, in fetch order: they are kept. -/
theorem setResults_error_keeps_earlier_rows {G : Type} (Args : List (FieldType G))
    (statement : MYSQL_STMT) (results : List (List (Value G))) (e : Exception)
    (he : e.isConversion = true) (h : (setResults Args statement results).2 = .exception e) :
    ∃ pre c post,
      fetchedColumns (describe Args statement.field_count).1 statement.answers
        = pre ++ c :: post ∧
      (∀ x ∈ pre, (assemble Args x).2 = .normal) ∧
      (assemble Args c).2 = .exception e ∧
      (setResults Args statement results).1.results
        = results ++ pre.map (fun c => (assemble Args c).1) := by
  obtain ⟨st0, k, rest, fs, s, hw, hrun, hcols⟩ :=
    setResults_conversion_error Args statement results e he h
  obtain ⟨pre, c, post, h1, h2, h3, h4⟩ := whileLoop_results_thrown Args rest st0
    { trace := setupTrace st0, results := results, cursor := k } e (by rw [hw])
  refine ⟨pre, c, post, ?_, h2, h3, ?_⟩
  · rw [← hcols]
    exact h1
  · rw [hrun]
    rw [hw] at h4
    exact h4

/-- C7 as amended, at the sample statement whose second row holds a NULL. -/
theorem setResults_error_keeps_earlier_rows_witness :
    (setResults sampleArgs sampleNullStatement []).2
        = .exception (.MySqlException NULL_VALUE_ERROR_MESSAGE) ∧
    ∃ pre c post,
      fetchedColumns (describe sampleArgs sampleNullStatement.field_count).1
          sampleNullStatement.answers = pre ++ c :: post ∧
      (∀ x ∈ pre, (assemble sampleArgs x).2 = .normal) ∧
      (assemble sampleArgs c).2 = .exception (.MySqlException NULL_VALUE_ERROR_MESSAGE) ∧
      (setResults sampleArgs sampleNullStatement []).1.results
        = [] ++ pre.map (fun c => (assemble sampleArgs c).1) :=
  ⟨by decide!,
   setResults_error_keeps_earlier_rows sampleArgs sampleNullStatement []
     (.MySqlException NULL_VALUE_ERROR_MESSAGE) (by decide) (by decide!)⟩

/-- C8: when a `setResults` call ends in a conversion error, that error is the
one the assembly of a fetched row ended in, unchanged. A setter that fails
ends `setResultTuple` at once, the positions still to come untouched. The last
events of the call are that assembly and one `mysql_stmt_close`: no fetch
follows, the statement is closed once, and the rows in the result vector are
those of the fetches before, without the failed row. -/
theorem setResults_decode_failure {G : Type} (Args : List (FieldType G))
    (statement : MYSQL_STMT) (results : List (List (Value G))) (e : Exception)
    (he : e.isConversion = true) (h : (setResults Args statement results).2 = .exception e) :
    (∃ (fetchStatus : Int) (t : List Event),
      (setResults Args statement results).1.trace
        = setupTrace fetchStatus ++ t ++ [.setResultTuple, .mysql_stmt_close] ∧
      Event.mysql_stmt_close ∉ setupTrace fetchStatus ++ t) ∧
    (setResults Args statement results).1.trace.count .mysql_stmt_close = 1 ∧
    (∃ pre c post,
      fetchedColumns (describe Args statement.field_count).1 statement.answers
        = pre ++ c :: post ∧
      (assemble Args c).2 = .exception e ∧
      (setResults Args statement results).1.results
        = results ++ pre.map (fun c => (assemble Args c).1)) ∧
    (∀ (I : Nat) (tuple : List (Value G)) (columns : Columns) (T : FieldType G)
        (value v : Value G) (bind : MYSQL_BIND) (st : Status),
      Args[I]? = some T → tuple[I]? = some value → columns.parameters[I]? = some bind →
      OutputBinderResultSetter.setResult T value columns bind = (v, st) → st ≠ .normal →
      setResultTuple Args (I + 1) tuple columns = (tuple.set I v, st)) := by
  obtain ⟨st0, k, rest, fs, s, hw, hrun, hcols⟩ :=
    setResults_conversion_error Args statement results e he h
  obtain ⟨pre, c, post, h1, _, h3, h4⟩ := whileLoop_results_thrown Args rest st0
    { trace := setupTrace st0, results := results, cursor := k } e (by rw [hw])
  obtain ⟨t, ht, hl⟩ := whileLoop_trace Args rest st0
    { trace := setupTrace st0, results := results, cursor := k }
  rw [hw] at ht hl h4
  simp only at ht hl h4
  obtain ⟨t0, ht0, hn⟩ := LoopTrace_thrown hl e rfl
  have hclose : Event.mysql_stmt_close ∉ setupTrace st0 ++ t0 := by
    simp only [List.mem_append, not_or]
    exact ⟨by simp [setupTrace], hn⟩
  rw [hrun]
  refine ⟨⟨st0, t0, ?_, hclose⟩, ?_, ⟨pre, c, post, ?_, h3, h4⟩, ?_⟩
  · simp [ht, ht0]
  · simp only [ht, ht0, ← List.append_assoc]
    rw [List.count_append, List.count_eq_zero.2 hclose]
    rfl
  · rw [← hcols]
    exact h1
  · intro I tuple columns T value v bind st e1 e2 e3 e4 hst
    rw [setResultTuple]
    simp only [e1, e2, e3, e4]

/-- C8 at the sample statement whose second row holds a NULL. -/
theorem setResults_decode_failure_witness :
    (setResults sampleArgs sampleNullStatement []).2
        = .exception (.MySqlException NULL_VALUE_ERROR_MESSAGE) ∧
    (setResults sampleArgs sampleNullStatement []).1.trace.count .mysql_stmt_close = 1 :=
  ⟨by decide!,
   (setResults_decode_failure sampleArgs sampleNullStatement []
     (.MySqlException NULL_VALUE_ERROR_MESSAGE) (by decide) (by decide!)).2.1⟩

/-- C9: when a `setResults` call that has executed the statement ends in an
exception, be it from the assembly of a row or from the final status check on
a fetch error, the last call it made is `mysql_stmt_close`, after the
execution and for the first time. -/
theorem setResults_failure_closes_statement {G : Type} (Args : List (FieldType G))
    (statement : MYSQL_STMT) (results : List (List (Value G))) (e : Exception)
    (h : (setResults Args statement results).2 = .exception e)
    (hexec : Event.mysql_stmt_execute ∈ (setResults Args statement results).1.trace) :
    ∃ t0, (setResults Args statement results).1.trace = t0 ++ [.mysql_stmt_close] ∧
      Event.mysql_stmt_execute ∈ t0 ∧ Event.mysql_stmt_close ∉ t0 := by
  by_cases hc : statement.field_count = Args.length
  · obtain ⟨st0, k, rest, hrun, _, _⟩ := setResults_run Args statement results hc
    obtain ⟨t, ht, hl⟩ := whileLoop_trace Args rest st0
      { trace := setupTrace st0, results := results, cursor := k }
    rw [hrun] at h ⊢
    rcases hw : whileLoop Args rest st0
      { trace := setupTrace st0, results := results, cursor := k } with ⟨fs, s, st⟩
    rw [hw] at h ht hl
    simp only at ht hl
    cases st with
    | normal =>
      have hn := LoopTrace_no_close hl rfl
      simp only [throwIfFetchError] at h ⊢
      split
      · rename_i heq
        simp [heq] at h
      · refine ⟨setupTrace st0 ++ t ++ [.throwIfFetchError], ?_, ?_, ?_⟩
        · simp [State.log, mysql_stmt_close, ht]
        · simp [setupTrace]
        · simp only [List.mem_append, List.mem_singleton, not_or]
          exact ⟨⟨by simp [setupTrace], hn⟩, by simp⟩
    | exception e2 =>
      obtain ⟨t0, ht0, hn⟩ := LoopTrace_thrown hl e2 rfl
      refine ⟨setupTrace st0 ++ t0 ++ [.setResultTuple], ?_, ?_, ?_⟩
      · simp [ht, ht0]
      · simp [setupTrace]
      · simp only [List.mem_append, List.mem_singleton, not_or]
        exact ⟨⟨by simp [setupTrace], hn⟩, by simp⟩
    | undefined => simp at h
  · rw [setResults_count_wrong Args statement results hc] at hexec
    simp at hexec

/-- C9 at the sample statement whose second fetch reports a database error. -/
theorem setResults_failure_closes_statement_witness :
    (setResults sampleArgs sampleErrorStatement []).2
        = .exception (.FetchError "Lost connection") ∧
    ∃ t0, (setResults sampleArgs sampleErrorStatement []).1.trace
        = t0 ++ [.mysql_stmt_close] ∧
      Event.mysql_stmt_execute ∈ t0 ∧ Event.mysql_stmt_close ∉ t0 :=
  ⟨by decide!,
   setResults_failure_closes_statement sampleArgs sampleErrorStatement []
     (.FetchError "Lost connection") (by decide!) (by decide!)⟩

/-- C10: a `setResults` call that returns normally has not closed the
statement: no `mysql_stmt_close` is among the calls it made. -/
theorem setResults_success_leaves_statement_open {G : Type} (Args : List (FieldType G))
    (statement : MYSQL_STMT) (results : List (List (Value G)))
    (h : (setResults Args statement results).2 = .normal) :
    Event.mysql_stmt_close ∉ (setResults Args statement results).1.trace := by
  by_cases hc : statement.field_count = Args.length
  · obtain ⟨st0, k, rest, hrun, _, _⟩ := setResults_run Args statement results hc
    obtain ⟨t, ht, hl⟩ := whileLoop_trace Args rest st0
      { trace := setupTrace st0, results := results, cursor := k }
    rw [hrun] at h ⊢
    rcases hw : whileLoop Args rest st0
      { trace := setupTrace st0, results := results, cursor := k } with ⟨fs, s, st⟩
    rw [hw] at h ht hl
    cases st with
    | normal =>
      have hn := LoopTrace_no_close hl rfl
      simp only [throwIfFetchError] at h ⊢
      split
      · simp only at ht
        simp only [State.log, ht, List.mem_append, List.mem_singleton]
        rintro ((h1 | h1) | h1)
        · simp [setupTrace] at h1
        · exact hn h1
        · cases h1
      · rename_i hne
        simp [throwIfFetchError, hne] at h
    | exception e => simp at h
    | undefined => simp at h
  · rw [setResults_count_wrong Args statement results hc] at h
    simp at h

/-- C10 at the sample statement of two rows. -/
theorem setResults_success_leaves_statement_open_witness :
    (setResults sampleArgs sampleStatement []).2 = .normal ∧
    Event.mysql_stmt_close ∉ (setResults sampleArgs sampleStatement []).1.trace :=
  ⟨by decide!,
   setResults_success_leaves_statement_open sampleArgs sampleStatement [] (by decide!)⟩

/-! ## Lemmas on the representation, the descriptors and the statuses -/

/-- The representation has as many bytes as asked for. -/
theorem leBytes_length (size u : Nat) : (leBytes size u).length = size := by
  induction size generalizing u with
  | zero => rfl
  | succ n ih => simp [leBytes, ih]

/-- Reading the bytes back gives the number, up to the width. -/
theorem leValue_leBytes (size u : Nat) : leValue (leBytes size u) = u % 256 ^ size := by
  induction size generalizing u with
  | zero => simp [leBytes, leValue, Nat.mod_one]
  | succ n ih =>
    simp only [leBytes, leValue, ih]
    rw [pow_succ, Nat.mul_comm (256 ^ n) 256, Nat.mod_mul]

/-- Reinterpreting the native representation of a value gives the value. -/
theorem Numeric.reinterpret_bytes (t : Numeric) (v : Int) (h : t.representable v) :
    t.reinterpret (t.bytes v) = some v := by
  unfold Numeric.reinterpret Numeric.bytes
  have htake : ∀ u, (leBytes t.sizeof u).take t.sizeof = leBytes t.sizeof u := fun u =>
    List.take_of_length_le (by rw [leBytes_length])
  simp only [leBytes_length, Nat.lt_irrefl, if_false, htake, leValue_leBytes]
  unfold Numeric.representable at h
  have hpos : (0 : Int) < 2 ^ (8 * t.sizeof) := by positivity
  have hu : (((v % 2 ^ (8 * t.sizeof)).toNat : Nat) : Int) = v % 2 ^ (8 * t.sizeof) :=
    Int.toNat_of_nonneg (Int.emod_nonneg _ (ne_of_gt hpos))
  generalize (v % 2 ^ (8 * t.sizeof)).toNat = u at hu ⊢
  cases t <;> simp only [Numeric.sizeof, Numeric.isSignedInt] at h hu ⊢ <;>
    norm_num at h hu ⊢ <;> first | omega | (split <;> simp only [Option.some.injEq] <;> omega)

/-- Every `setParameter` points the descriptor at the buffer and the null flag
it was given, and leaves the length pointer alone. -/
theorem setParameter_pointers {G : Type} (T : FieldType G) (bind : MYSQL_BIND) (data : Nat)
    (buffer : Bytes) (isNullFlag : Nat) :
    (OutputBinderParameterSetter.setParameter T bind data buffer isNullFlag).1.buffer
        = some data ∧
    (OutputBinderParameterSetter.setParameter T bind data buffer isNullFlag).1.is_null
        = some isNullFlag ∧
    (OutputBinderParameterSetter.setParameter T bind data buffer isNullFlag).1.length
        = bind.length := by
  induction T with
  | numeric t => exact ⟨rfl, rfl, rfl⟩
  | string => exact ⟨rfl, rfl, rfl⟩
  | other init lc => exact ⟨rfl, rfl, rfl⟩
  | shared_ptr T ih =>
    rw [OutputBinderParameterSetter.setParameter]
    exact ih

/-- What `bindParameters` leaves behind: each position below the counter holds
the result of one `setParameter` of its declared type on its own descriptor,
buffer and null flag; the rest is as it was. -/
theorem bindParameters_spec {G : Type} (tuple : List (FieldType G)) :
    ∀ (n : Nat) (c : Columns), n ≤ tuple.length → n ≤ c.parameters.length →
      n ≤ c.buffers.length → n ≤ c.nullFlags.length →
      ∃ d, bindParameters tuple n c = (d, .normal) ∧
        d.lengths = c.lengths ∧ d.nullFlags = c.nullFlags ∧
        d.parameters.length = c.parameters.length ∧ d.buffers.length = c.buffers.length ∧
        (∀ i T bind buffer, i < n → tuple[i]? = some T → c.parameters[i]? = some bind →
          c.buffers[i]? = some buffer →
          d.parameters[i]?
            = some (OutputBinderParameterSetter.setParameter T bind i buffer i).1 ∧
          d.buffers[i]?
            = some (OutputBinderParameterSetter.setParameter T bind i buffer i).2) ∧
        (∀ i, n ≤ i →
          d.parameters[i]? = c.parameters[i]? ∧ d.buffers[i]? = c.buffers[i]?) := by
  intro n
  induction n with
  | zero =>
    intro c _ _ _ _
    exact ⟨c, rfl, rfl, rfl, rfl, rfl, fun i T bind buffer hi => absurd hi (by omega),
      fun i _ => ⟨rfl, rfl⟩⟩
  | succ I ih =>
    intro c h1 h2 h3 h4
    rw [bindParameters]
    have e1 : tuple[I]? = some tuple[I] := List.getElem?_eq_getElem (by omega)
    have e2 : c.parameters[I]? = some c.parameters[I] := List.getElem?_eq_getElem (by omega)
    have e3 : c.buffers[I]? = some c.buffers[I] := List.getElem?_eq_getElem (by omega)
    have e4 : c.nullFlags[I]? = some c.nullFlags[I] := List.getElem?_eq_getElem (by omega)
    simp only [e1, e2, e3, e4]
    obtain ⟨d, hd, hl, hn, hp, hb, hlow, hhigh⟩ := ih
      { c with
          parameters := c.parameters.set I
            (OutputBinderParameterSetter.setParameter tuple[I] c.parameters[I] I c.buffers[I] I).1
          buffers := c.buffers.set I
            (OutputBinderParameterSetter.setParameter tuple[I] c.parameters[I] I c.buffers[I] I).2 }
      (by omega) (by simp; omega) (by simp; omega) (by simp; omega)
    refine ⟨d, hd, hl, hn, by simpa using hp, by simpa using hb, ?_, ?_⟩
    · intro i T bind buffer hi hT hbind hbuf
      by_cases hiI : i = I
      · subst hiI
        rw [e1] at hT
        rw [e2] at hbind
        rw [e3] at hbuf
        simp only [Option.some.injEq] at hT hbind hbuf
        subst hT hbind hbuf
        have := hhigh i (Nat.le_refl i)
        simp only at this
        rw [this.1, this.2]
        constructor
        · exact List.getElem?_set_self (by omega)
        · exact List.getElem?_set_self (by omega)
      · have hlt : i < I := by omega
        apply hlow i T bind buffer hlt hT
        · simp only
          rw [List.getElem?_set_ne (by omega)]
          exact hbind
        · simp only
          rw [List.getElem?_set_ne (by omega)]
          exact hbuf
    · intro i hi
      have := hhigh i (by omega)
      simp only at this
      rw [this.1, this.2]
      exact ⟨List.getElem?_set_ne (by omega), List.getElem?_set_ne (by omega)⟩

/-- What the length loop leaves behind: each position it has visited has its
length pointer at its own length slot and is otherwise as it was. -/
theorem lengthLoop_spec (fieldCount : Nat) :
    ∀ (k : Nat) (c : Columns), k ≤ fieldCount → c.parameters.length = fieldCount →
      c.lengths.length = fieldCount →
      ∃ d, lengthLoop fieldCount k c = (d, .normal) ∧
        d.buffers = c.buffers ∧ d.lengths = c.lengths ∧ d.nullFlags = c.nullFlags ∧
        d.parameters.length = fieldCount ∧
        (∀ i bind, fieldCount - k ≤ i → c.parameters[i]? = some bind →
          d.parameters[i]? = some { bind with length := some i }) ∧
        (∀ i, i < fieldCount - k → d.parameters[i]? = c.parameters[i]?) := by
  intro k
  induction k with
  | zero =>
    intro c _ hp _
    refine ⟨c, rfl, rfl, rfl, rfl, hp, ?_, fun i _ => rfl⟩
    intro i bind hi hb
    have : i < c.parameters.length := by
      by_contra hge
      rw [List.getElem?_eq_none (by omega)] at hb
      cases hb
    omega
  | succ k ih =>
    intro c h1 h2 h3
    rw [lengthLoop]
    have e1 : c.parameters[fieldCount - (k + 1)]? = some c.parameters[fieldCount - (k + 1)] :=
      List.getElem?_eq_getElem (by omega)
    have e2 : c.lengths[fieldCount - (k + 1)]? = some c.lengths[fieldCount - (k + 1)] :=
      List.getElem?_eq_getElem (by omega)
    simp only [e1, e2]
    obtain ⟨d, hd, hb, hl, hn, hp, hvis, hnot⟩ := ih
      { c with
          parameters := c.parameters.set (fieldCount - (k + 1))
            { c.parameters[fieldCount - (k + 1)] with length := some (fieldCount - (k + 1)) } }
      (by omega) (by simp; omega) (by simpa using h3)
    refine ⟨d, hd, hb, hl, hn, hp, ?_, ?_⟩
    · intro i bind hi hbind
      by_cases hik : i = fieldCount - (k + 1)
      · subst hik
        rw [e1] at hbind
        simp only [Option.some.injEq] at hbind
        subst hbind
        rw [hnot _ (by omega)]
        exact List.getElem?_set_self (by omega)
      · apply hvis i bind (by omega)
        simp only
        rw [List.getElem?_set_ne (by omega)]
        exact hbind
    · intro i hi
      rw [hnot i (by omega)]
      exact List.getElem?_set_ne (by omega)

/-- What descriptor construction leaves behind when the counts agree. -/
theorem describe_spec {G : Type} (Args : List (FieldType G)) :
    ∃ c, describe Args Args.length = (c, .normal) ∧
      c.parameters.length = Args.length ∧ c.buffers.length = Args.length ∧
      c.lengths.length = Args.length ∧ c.nullFlags.length = Args.length ∧
      ∀ i T, Args[i]? = some T →
        c.parameters[i]? = some
          { (OutputBinderParameterSetter.setParameter T MYSQL_BIND.zero i [] i).1 with
            length := some i } ∧
        c.buffers[i]?
          = some (OutputBinderParameterSetter.setParameter T MYSQL_BIND.zero i [] i).2 ∧
        ∃ bind, c.parameters[i]? = some bind ∧
          bind.buffer = some i ∧ bind.is_null = some i ∧ bind.length = some i := by
  obtain ⟨d, hd, hl, hn, hp, hb, hlow, _⟩ :=
    bindParameters_spec Args Args.length (Columns.allocate Args.length)
      (Nat.le_refl _) (by simp [Columns.allocate]) (by simp [Columns.allocate])
      (by simp [Columns.allocate])
  have hpl : d.parameters.length = Args.length := by rw [hp]; simp [Columns.allocate]
  obtain ⟨e, he, hb2, hl2, hn2, hp2, hvis, _⟩ :=
    lengthLoop_spec Args.length Args.length d (Nat.le_refl _) hpl
      (by rw [hl]; simp [Columns.allocate])
  refine ⟨e, by simp [describe, hd, he], hp2, ?_, ?_, ?_, ?_⟩
  · rw [hb2, hb]; simp [Columns.allocate]
  · rw [hl2, hl]; simp [Columns.allocate]
  · rw [hn2, hn]; simp [Columns.allocate]
  · intro i T hT
    have hi : i < Args.length := by
      by_contra hge
      rw [List.getElem?_eq_none (by omega)] at hT
      cases hT
    have h0 : (Columns.allocate Args.length).parameters[i]? = some MYSQL_BIND.zero := by
      simp [Columns.allocate, List.getElem?_replicate, hi]
    have h1 : (Columns.allocate Args.length).buffers[i]? = some [] := by
      simp [Columns.allocate, List.getElem?_replicate, hi]
    obtain ⟨hpar, hbuf⟩ := hlow i T MYSQL_BIND.zero [] hi hT h0 h1
    have hfin := hvis i _ (by omega) hpar
    have hptr := setParameter_pointers T MYSQL_BIND.zero i [] i
    refine ⟨hfin, by rw [hb2]; exact hbuf, _, hfin, hptr.1, hptr.2.1, rfl⟩

/-- No setter throws `out_of_range`. -/
theorem setResult_in_range {G : Type} (T : FieldType G) (value : Value G) (c : Columns)
    (bind : MYSQL_BIND) :
    (OutputBinderResultSetter.setResult T value c bind).2 ≠ .exception .out_of_range := by
  induction T generalizing value with
  | numeric t =>
    simp only [OutputBinderResultSetter.setResult,
      OUTPUT_BINDER_ELEMENT_SETTER_SPECIALIZATION.setResult]
    split <;> try simp
    split <;> simp
  | string =>
    simp only [OutputBinderResultSetter.setResult, OutputBinderResultSetter_string.setResult]
    split <;> try simp
    split <;> simp
  | other init lc =>
    simp only [OutputBinderResultSetter.setResult, OutputBinderResultSetter_T.setResult]
    split <;> try simp
    split <;> try simp
    split <;> simp
  | shared_ptr T ih =>
    simp only [OutputBinderResultSetter.setResult, OutputBinderResultSetter_shared_ptr.setResult]
    split <;> try simp
    have := ih T.init
    split <;> simp_all

/-- With as many descriptors and fields as positions to visit, `setResultTuple`
does not throw `out_of_range`. -/
theorem setResultTuple_in_range {G : Type} (Args : List (FieldType G)) (c : Columns) :
    ∀ (n : Nat) (tuple : List (Value G)), n ≤ c.parameters.length →
      (setResultTuple Args n tuple c).2 ≠ .exception .out_of_range := by
  intro n
  induction n with
  | zero =>
    intro tuple _
    simp [setResultTuple]
  | succ I ih =>
    intro tuple hn
    rw [setResultTuple]
    have e2 : c.parameters[I]? = some c.parameters[I] := List.getElem?_eq_getElem (by omega)
    split
    · rename_i T value hA htup
      simp only [e2]
      have hs := setResult_in_range T value c c.parameters[I]
      split
      · exact ih _ (by omega)
      · rename_i v st hne heq
        rw [heq] at hs
        exact hs
    · simp

/-- The library never touches the descriptors when it delivers a cell. -/
theorem receive_parameters (c : Columns) (bind : MYSQL_BIND) (cell : Cell) (offset : Nat) :
    (c.receive bind cell offset).parameters = c.parameters := by
  unfold Columns.receive
  cases bind.is_null <;> cases cell.is_null <;> cases bind.length <;> cases bind.buffer <;>
    dsimp only <;> repeat (first | rfl | split)

/-- The library never touches the descriptors when it delivers a row. -/
theorem receiveRow_parameters (c : Columns) (row : List Cell) :
    (c.receiveRow row).parameters = c.parameters := by
  unfold Columns.receiveRow
  generalize c.parameters.zip row = l
  induction l generalizing c with
  | nil => rfl
  | cons p l ih =>
    rw [List.foldl_cons, ih, receive_parameters]

/-- A fetch leaves the descriptors as they are. -/
theorem fetched_parameters (k : Cursor) (a : Fetch) :
    (k.fetched a).columns.parameters = k.columns.parameters := by
  unfold Cursor.fetched
  split
  · exact receiveRow_parameters _ _
  · rfl

/-- The refetch of a column keeps the number of descriptors. -/
theorem refetchColumn_parameters (r : Cursor × List Event) (i : Nat) :
    (refetchColumn r i).1.columns.parameters.length = r.1.columns.parameters.length := by
  unfold refetchColumn
  dsimp only
  split
  · split
    · simp [receive_parameters]
    · rfl
  · rfl

/-- The refetch of a row keeps the number of descriptors. -/
theorem refetched_parameters (k : Cursor) (fetchStatus : Int) :
    (k.refetched fetchStatus).columns.parameters.length = k.columns.parameters.length := by
  unfold Cursor.refetched
  split
  · unfold refetchTruncatedColumns
    generalize List.range k.columns.lengths.length = l
    have key : ∀ (l : List Nat) (r : Cursor × List Event),
        (l.foldl refetchColumn r).1.columns.parameters.length
          = r.1.columns.parameters.length := by
      intro l
      induction l with
      | nil => intro r; rfl
      | cons i l ih =>
        intro r
        rw [List.foldl_cons, ih, refetchColumn_parameters]
    exact key l (k, [])
  · rfl

/-- Every column state a row is assembled from has as many descriptors as the
cursor the loop was entered with. -/
theorem rowColumns_parameters (answers : List Fetch) :
    ∀ (fetchStatus : Int) (k : Cursor), ∀ c ∈ rowColumns answers fetchStatus k,
      c.parameters.length = k.columns.parameters.length := by
  induction answers with
  | nil =>
    intro fetchStatus k c hc
    rw [rowColumns] at hc
    split at hc
    · simp only [List.mem_singleton] at hc
      rw [hc, refetched_parameters]
    · cases hc
  | cons a rest ih =>
    intro fetchStatus k c hc
    rw [rowColumns] at hc
    split at hc
    · rcases List.mem_cons.1 hc with h | h
      · rw [h, refetched_parameters]
      · rw [ih _ _ c h, fetched_parameters, refetched_parameters]
    · cases hc

/-- Every column state a row is assembled from has as many descriptors as the
vectors the statement was bound to. -/
theorem fetchedColumns_parameters (columns : Columns) (answers : List Fetch) :
    ∀ c ∈ fetchedColumns columns answers, c.parameters.length = columns.parameters.length := by
  intro c hc
  cases answers with
  | nil => cases hc
  | cons a rest =>
    rw [fetchedColumns] at hc
    rw [rowColumns_parameters rest _ _ c hc, fetched_parameters]

/-- Where an exception of `setResults` comes from: the count check, the final
status check, or the assembly of a fetched row, after the count check passed. -/
theorem setResults_exception_source {G : Type} (Args : List (FieldType G))
    (statement : MYSQL_STMT) (results : List (List (Value G))) (e : Exception)
    (h : (setResults Args statement results).2 = .exception e) :
    e = .ArgumentCountError Args.length statement.field_count ∨
    e = .FetchError statement.error ∨
    (statement.field_count = Args.length ∧
      ∃ c ∈ fetchedColumns (describe Args statement.field_count).1 statement.answers,
        (assemble Args c).2 = .exception e) := by
  by_cases hc : statement.field_count = Args.length
  · obtain ⟨st0, k, rest, hrun, hcols, _⟩ := setResults_run Args statement results hc
    rw [hrun] at h
    rcases hw : whileLoop Args rest st0
      { trace := setupTrace st0, results := results, cursor := k } with ⟨fs, s, st⟩
    rw [hw] at h
    cases st with
    | normal =>
      simp only [throwIfFetchError] at h
      split at h
      · simp at h
      · simp only [Status.exception.injEq] at h
        exact Or.inr (Or.inl h.symm)
    | exception e2 =>
      simp only [Status.exception.injEq] at h
      subst h
      obtain ⟨pre, c, post, h1, _, h3, _⟩ := whileLoop_results_thrown Args rest st0
        { trace := setupTrace st0, results := results, cursor := k } e2 (by rw [hw])
      refine Or.inr (Or.inr ⟨hc, c, ?_, h3⟩)
      rw [← hcols]
      simp only at h1
      rw [h1]
      simp
    | undefined => simp at h
  · rw [setResults_count_wrong Args statement results hc] at h
    simp only [Status.exception.injEq] at h
    exact Or.inl h.symm

/-- The fetch statuses of a trace are those of its parts. -/
theorem fetchStatuses_append (a b : List Event) :
    fetchStatuses (a ++ b) = fetchStatuses a ++ fetchStatuses b := by
  induction a with
  | nil => rfl
  | cons e a ih =>
    cases e <;> simp [fetchStatuses, ih]

/-- A refetch issues no `mysql_stmt_fetch`. -/
theorem fetchStatuses_refetch {fetchStatus : Int} {pre : List Event}
    (h : Refetch fetchStatus pre) : fetchStatuses pre = [] := by
  cases h with
  | row => rfl
  | truncated columns =>
    simp only [fetchStatuses]
    induction columns with
    | nil => rfl
    | cons i l ih => simpa [fetchStatuses] using ih

/-- The loop when every row assembles: it ends normally on the stopping
status, having fetched up to and including that status and no further. -/
theorem whileLoop_stops {G : Type} (Args : List (FieldType G)) (answers : List Fetch) :
    ∀ (fetchStatus : Int) (s : State G),
      (∀ c ∈ rowColumns answers fetchStatus s.cursor, (assemble Args c).2 = .normal) →
      (whileLoop Args answers fetchStatus s).2.2 = .normal ∧
      (whileLoop Args answers fetchStatus s).1
        = stopStatus (fetchStatus :: answers.map Fetch.status) ∧
      fetchStatuses (whileLoop Args answers fetchStatus s).2.1.trace
        = fetchStatuses s.trace ++
          if isRow fetchStatus then
            (answers.map Fetch.status).takeWhile (fun st => decide (isRow st)) ++
              [stopStatus (answers.map Fetch.status)]
          else [] := by
  induction answers with
  | nil =>
    intro fetchStatus s hall
    rw [whileLoop_nil, iteration_eq]
    rw [rowColumns] at hall
    by_cases hrow : isRow fetchStatus
    · have hrow2 : fetchStatus = 0 ∨ fetchStatus = MYSQL_DATA_TRUNCATED := hrow
      obtain ⟨pre, hpre, hre⟩ := refetched_trace s fetchStatus hrow
      simp only [hrow2, if_true, List.mem_singleton, forall_eq] at hall
      simp only [hrow, if_true, stopStatus, hpre]
      rcases hasm : assemble Args (s.cursor.refetched fetchStatus).columns with ⟨row, st⟩
      rw [hasm] at hall
      simp only at hall
      subst hall
      simp [State.log, fetchStatuses_append, fetchStatuses_refetch hre, fetchStatuses]
    · simp [hrow, stopStatus]
  | cons a rest ih =>
    intro fetchStatus s hall
    rw [whileLoop_cons, iteration_eq]
    rw [rowColumns] at hall
    by_cases hrow : isRow fetchStatus
    · have hrow2 : fetchStatus = 0 ∨ fetchStatus = MYSQL_DATA_TRUNCATED := hrow
      obtain ⟨pre, hpre, hre⟩ := refetched_trace s fetchStatus hrow
      simp only [hrow2, if_true, List.mem_cons, forall_eq_or_imp] at hall
      obtain ⟨hhead, htail⟩ := hall
      simp only [hrow, if_true, hpre]
      rcases hasm : assemble Args (s.cursor.refetched fetchStatus).columns with ⟨row, st⟩
      rw [hasm] at hhead
      simp only at hhead
      subst hhead
      simp only
      obtain ⟨h1, h2, h3⟩ := ih a.status
        (State.fetched
          { trace := s.trace ++ pre ++ [.setResultTuple, .push_back],
            results := s.results ++ [row],
            cursor := s.cursor.refetched fetchStatus } a)
        (by simpa [State.fetched, State.log] using htail)
      refine ⟨h1, ?_, ?_⟩
      · rw [h2]
        simp [stopStatus, hrow]
      · rw [h3]
        simp only [State.fetched, State.log, fetchStatuses_append, fetchStatuses_refetch hre,
          fetchStatuses, List.map_cons, stopStatus]
        by_cases hnext : isRow a.status
        · simp [hnext, List.takeWhile_cons]
        · simp [hnext, List.takeWhile_cons]
    · simp [hrow, stopStatus]

/-- The stopping status is never a row. -/
theorem stopStatus_not_row (l : List Int) : ¬ isRow (stopStatus l) := by
  induction l with
  | nil => decide
  | cons st rest ih =>
    rw [stopStatus]
    split
    · exact ih
    · assumption

/-- A call that gets past the count check, with the statuses of its fetches:
those of the answers of the statement, then `MYSQL_NO_DATA`. -/
theorem setResults_run_statuses {G : Type} (Args : List (FieldType G))
    (statement : MYSQL_STMT) (results : List (List (Value G)))
    (h : statement.field_count = Args.length) :
    ∃ (fetchStatus : Int) (k : Cursor) (rest : List Fetch),
      setResults Args statement results =
        (match whileLoop Args rest fetchStatus
            { trace := setupTrace fetchStatus, results := results, cursor := k } with
         | (fetchStatus, s, .normal) =>
           throwIfFetchError fetchStatus statement (s.log .throwIfFetchError)
         | (_, s, st) => (s, st)) ∧
      rowColumns rest fetchStatus k
        = fetchedColumns (describe Args statement.field_count).1 statement.answers ∧
      stopStatus (fetchStatus :: rest.map Fetch.status)
        = stopStatus (statement.answers.map Fetch.status) ∧
      (fetchStatus ::
          if isRow fetchStatus then
            (rest.map Fetch.status).takeWhile (fun st => decide (isRow st)) ++
              [stopStatus (rest.map Fetch.status)]
          else [])
        = (statement.answers.map Fetch.status).takeWhile (fun st => decide (isRow st)) ++
            [stopStatus (statement.answers.map Fetch.status)] := by
  obtain ⟨columns, hc⟩ := describe_ok Args
  rw [h]
  cases ha : statement.answers with
  | nil =>
    refine ⟨MYSQL_NO_DATA, { row := [], columns := columns }, [], ?_, ?_, ?_, ?_⟩
    · simp [setResults, throwIfArgumentCountWrong, h, hc, bindAndExecuteStatement, ha,
        State.log, setupTrace]
    · rw [rowColumns]
      simp [fetchedColumns, MYSQL_NO_DATA, MYSQL_DATA_TRUNCATED]
    · simp [stopStatus, isRow, MYSQL_NO_DATA, MYSQL_DATA_TRUNCATED]
    · simp [stopStatus, isRow, MYSQL_NO_DATA, MYSQL_DATA_TRUNCATED]
  | cons a rest =>
    refine ⟨a.status, Cursor.fetched { row := [], columns := columns } a, rest, ?_, ?_, ?_, ?_⟩
    · simp [setResults, throwIfArgumentCountWrong, h, hc, bindAndExecuteStatement, ha,
        State.log, setupTrace, State.fetched]
    · simp [fetchedColumns, hc]
    · simp
    · by_cases hrow : isRow a.status
      · simp [hrow, stopStatus, List.takeWhile_cons]
      · simp [hrow, stopStatus, List.takeWhile_cons]

/-- As many rows are assembled as fetches answer row or truncated before the
first other answer. -/
theorem fetchedColumns_length (columns : Columns) (answers : List Fetch) :
    (fetchedColumns columns answers).length
      = ((answers.map Fetch.status).takeWhile fun st => decide (isRow st)).length := by
  cases answers with
  | nil => rfl
  | cons a rest =>
    rw [fetchedColumns, rowColumns_length]
    rfl

/-- Reading a value followed by a zero byte as a C string gives the value,
when the value itself holds no zero byte. -/
theorem c_str_terminated (data rest : Bytes) (h : (0 : Byte) ∉ data) :
    c_str (data ++ 0 :: rest) = some data := by
  unfold c_str
  have hmem : (0 : Byte) ∈ data ++ 0 :: rest := by simp
  rw [if_pos hmem]
  congr 1
  induction data with
  | nil => simp [List.takeWhile]
  | cons b data ih =>
    have hb : b ≠ 0 := fun hb => h (by simp [hb])
    have hd : (0 : Byte) ∉ data := fun hd => h (by simp [hd])
    simp only [List.cons_append]
    rw [List.takeWhile_cons]
    simp only [hb, ne_eq, not_false_eq_true, decide_True, if_true]
    rw [ih hd (by simp)]

/-- What the library leaves in a buffer for a value shorter than the capacity
reads back, as a C string, as the value, when the value holds no zero byte. -/
theorem c_str_store (data old : Bytes) (capacity : Nat) (hlen : data.length < capacity)
    (h : (0 : Byte) ∉ data) : c_str (store data 0 capacity old) = some data := by
  unfold store
  have htake : (data.drop 0).take capacity = data := by
    rw [List.drop_zero]
    exact List.take_of_length_le (by omega)
  simp only [htake, hlen, if_true, List.append_assoc, List.singleton_append]
  exact c_str_terminated data _ h

/-! ## Properties of the setters and of descriptor construction -/

/-- C11: for each of the ten numeric types `setParameter` resizes the buffer to
`sizeof(type)` bytes, sets the wire type tag and the signedness of the type,
points the descriptor at the buffer and at the null flag, and leaves the other
fields alone; sizes, tags and signedness are 1, 1, 2, 2, 4, 4, 8, 8, 4, 8 bytes,
TINY, SHORT, LONG, LONGLONG, FLOAT, DOUBLE, and unsigned for the four unsigned
integer types only. -/
theorem numeric_setParameter {G : Type} (type : Numeric) (bind : MYSQL_BIND) (data : Nat)
    (buffer : Bytes) (isNullFlag : Nat) :
    (OutputBinderParameterSetter.setParameter (.numeric type : FieldType G)
        bind data buffer isNullFlag).2.length = type.sizeof ∧
    (OutputBinderParameterSetter.setParameter (.numeric type : FieldType G)
        bind data buffer isNullFlag).1
      = { bind with
          buffer_type := type.mysqlType
          is_unsigned := type.isUnsigned
          buffer := some data
          is_null := some isNullFlag } ∧
    Numeric.all.map (fun t => (t, t.sizeof, t.mysqlType, t.isUnsigned))
      = [(.int8_t, 1, .MYSQL_TYPE_TINY, false), (.uint8_t, 1, .MYSQL_TYPE_TINY, true),
         (.int16_t, 2, .MYSQL_TYPE_SHORT, false), (.uint16_t, 2, .MYSQL_TYPE_SHORT, true),
         (.int32_t, 4, .MYSQL_TYPE_LONG, false), (.uint32_t, 4, .MYSQL_TYPE_LONG, true),
         (.int64_t, 8, .MYSQL_TYPE_LONGLONG, false), (.uint64_t, 8, .MYSQL_TYPE_LONGLONG, true),
         (.float, 4, .MYSQL_TYPE_FLOAT, false), (.double, 8, .MYSQL_TYPE_DOUBLE, false)] ∧
    ∀ t : Numeric, t ∈ Numeric.all := by
  refine ⟨?_, rfl, rfl, ?_⟩
  · simp only [OutputBinderParameterSetter.setParameter,
      OUTPUT_BINDER_PARAMETER_SETTER_SPECIALIZATION.setParameter, resize, List.length_append,
      List.length_take, List.length_replicate]
    omega
  · intro t
    cases t <;> decide

/-- C12: for each numeric type and every value it can hold, the least and the
greatest included, a buffer of `sizeof(type)` bytes holding the native
representation of the value, with the null flag clear, decodes to exactly
that value; for `float` and `double` the value is the bit pattern. -/
theorem numeric_round_trip {G : Type} (type : Numeric) (v : Int) (h : type.representable v)
    (value : Value G) (c : Columns) (bind : MYSQL_BIND)
    (hnull : c.is_null bind = some false) (hbuf : c.buffer bind = some (type.bytes v)) :
    (type.bytes v).length = type.sizeof ∧
    OutputBinderResultSetter.setResult (.numeric type) value c bind
      = (.numeric v, .normal) := by
  refine ⟨leBytes_length _ _, ?_⟩
  simp [OutputBinderResultSetter.setResult,
    OUTPUT_BINDER_ELEMENT_SETTER_SPECIALIZATION.setResult, hnull, hbuf,
    Numeric.reinterpret_bytes type v h]

/-- C12 at the least `int32_t`, whose bytes are 0, 0, 0, 128. -/
theorem numeric_round_trip_witness :
    Numeric.representable .int32_t (-2147483648) ∧
    sampleMinColumn.buffer sampleBind = some (Numeric.bytes .int32_t (-2147483648)) ∧
    OutputBinderResultSetter.setResult (.numeric .int32_t) (.numeric 0 : Value Unit)
        sampleMinColumn sampleBind = (.numeric (-2147483648), .normal) :=
  ⟨by decide, by decide,
   (numeric_round_trip .int32_t (-2147483648) (by decide) (.numeric 0 : Value Unit)
      sampleMinColumn sampleBind (by decide) (by decide)).2⟩

/-- C13 at two text columns. A value of five bytes with a zero byte in third
place decodes to its first two bytes, not to the five bytes its length
reports; a value that fills the buffer leaves no terminator and the read
leaves the buffer. Both are what `setResults` makes of such rows. -/
theorem string_setResult_stops_at_zero_byte :
    sampleZeroColumn.buffer sampleTextBind
        = some [97, 98, 0, 99, 100, 0, 0, 0, 0, 0, 0, 0, 0, 0, 0, 0, 0, 0, 0, 0] ∧
    sampleZeroColumn.lengths = [5] ∧
    OutputBinderResultSetter.setResult (.string : FieldType Unit) (.string [])
        sampleZeroColumn sampleTextBind = (.string [97, 98], .normal) ∧
    sampleFullColumn.lengths = [20] ∧
    (OutputBinderResultSetter.setResult (.string : FieldType Unit) (.string [])
        sampleFullColumn sampleTextBind).2 = .undefined ∧
    (setResults ([.string] : List (FieldType Unit)) sampleZeroStatement []).1.cursor.columns
        = sampleZeroColumn ∧
    (setResults ([.string] : List (FieldType Unit)) sampleZeroStatement []).1.results
        = [[.string [97, 98]]] ∧
    (setResults ([.string] : List (FieldType Unit)) sampleFullStatement []).1.cursor.columns
        = sampleFullColumn ∧
    (setResults ([.string] : List (FieldType Unit)) sampleFullStatement []).2 = .undefined := by
  decide!

/-- C14 fails as stated: of two columns that both fail to decode, column 0 by
a failed parse and column 1 by a NULL, the error of `setResultTuple` is the
null-value error of column 1, not the conversion error of column 0. -/
theorem setResultTuple_declared_order_counterexample :
    columnStatus sampleFailingArgs sampleFailingColumns 0
        = some (.exception .bad_lexical_cast) ∧
    columnStatus sampleFailingArgs sampleFailingColumns 1
        = some (.exception (.MySqlException NULL_VALUE_ERROR_MESSAGE)) ∧
    (setResultTuple sampleFailingArgs 2 (sampleFailingArgs.map FieldType.init)
        sampleFailingColumns).2 = .exception (.MySqlException NULL_VALUE_ERROR_MESSAGE) := by
  decide

/-- C14 as amended: `setResultTuple` decodes the columns from the last
position down to position 0. When column `I` fails and the columns after it
up to the last succeed, the call ends as the setter of column `I` ends, the
fields before position `I` are as they were, and the types declared before
position `I` have no part in the outcome: none of them is decoded. -/
theorem setResultTuple_highest_failure {G : Type} (Args : List (FieldType G)) (c : Columns)
    (I : Nat) (st : Status) (hfail : columnStatus Args c I = some st) (hst : st ≠ .normal) :
    ∀ (n : Nat) (tuple : List (Value G)), I < n → n ≤ tuple.length →
      (∀ j, I < j → j < n → columnStatus Args c j = some .normal) →
      (setResultTuple Args n tuple c).2 = st ∧
      (∀ j, j < I → (setResultTuple Args n tuple c).1[j]? = tuple[j]?) ∧
      ∀ Args2 : List (FieldType G), (∀ j, I ≤ j → Args2[j]? = Args[j]?) →
        setResultTuple Args2 n tuple c = setResultTuple Args n tuple c := by
  intro n
  induction n with
  | zero => intro tuple hI; omega
  | succ m ih =>
    intro tuple hI hn hok
    have htup : tuple[m]? = some tuple[m] := List.getElem?_eq_getElem (by omega)
    by_cases hm : m = I
    · subst hm
      unfold columnStatus at hfail
      cases hA : Args[m]? with
      | none => simp [hA] at hfail
      | some T =>
        cases hP : c.parameters[m]? with
        | none => simp [hA, hP] at hfail
        | some bind =>
          simp only [hA, hP, Option.some.injEq] at hfail
          have htarget := (setResult_target T tuple[m] T.init c bind).1
          rw [hfail] at htarget
          rcases hr : OutputBinderResultSetter.setResult T tuple[m] c bind with ⟨v, s⟩
          rw [hr] at htarget
          simp only at htarget
          subst htarget
          have hres : setResultTuple Args (m + 1) tuple c = (tuple.set m v, s) := by
            rw [setResultTuple]
            simp only [hA, htup, hP, hr]
          refine ⟨by rw [hres], ?_, ?_⟩
          · intro j hj
            rw [hres]
            exact List.getElem?_set_ne (by omega)
          · intro Args2 h2
            rw [hres, setResultTuple]
            simp only [h2 m (Nat.le_refl m), hA, htup, hP, hr]
    · have hIm : I < m := by omega
      have hcol := hok m hIm (Nat.lt_succ_self m)
      unfold columnStatus at hcol
      cases hA : Args[m]? with
      | none => simp [hA] at hcol
      | some T =>
        cases hP : c.parameters[m]? with
        | none => simp [hA, hP] at hcol
        | some bind =>
          simp only [hA, hP, Option.some.injEq] at hcol
          have htarget := (setResult_target T tuple[m] T.init c bind).1
          rw [hcol] at htarget
          rcases hr : OutputBinderResultSetter.setResult T tuple[m] c bind with ⟨v, s⟩
          rw [hr] at htarget
          simp only at htarget
          subst htarget
          obtain ⟨h1, h2, h3⟩ := ih (tuple.set m v) hIm (by simp; omega)
            (fun j hj hjm => hok j hj (by omega))
          have hres : setResultTuple Args (m + 1) tuple c
              = setResultTuple Args m (tuple.set m v) c := by
            rw [setResultTuple]
            simp only [hA, htup, hP, hr]
          refine ⟨by rw [hres]; exact h1, ?_, ?_⟩
          · intro j hj
            rw [hres, h2 j hj]
            exact List.getElem?_set_ne (by omega)
          · intro Args2 hArgs
            rw [hres, ← h3 Args2 hArgs, setResultTuple]
            simp only [hArgs m (by omega), hA, htup, hP, hr]

/-- C14 as amended, at the two sample columns: when both fail the error is
that of column 1, and when only column 0 fails it is that of column 0. -/
theorem setResultTuple_highest_failure_witness :
    (setResultTuple sampleFailingArgs 2 (sampleFailingArgs.map FieldType.init)
        sampleFailingColumns).2 = .exception (.MySqlException NULL_VALUE_ERROR_MESSAGE) ∧
    (setResultTuple sampleFailingArgs 2 (sampleFailingArgs.map FieldType.init)
        { sampleFailingColumns with nullFlags := [false, false] }).2
      = .exception .bad_lexical_cast :=
  ⟨(setResultTuple_highest_failure sampleFailingArgs sampleFailingColumns 1
      (.exception (.MySqlException NULL_VALUE_ERROR_MESSAGE)) (by decide) (by decide) 2
      (sampleFailingArgs.map FieldType.init) (by decide) (by decide)
      (fun j h1 h2 => absurd h2 (by omega))).1,
   (setResultTuple_highest_failure sampleFailingArgs
      { sampleFailingColumns with nullFlags := [false, false] } 0
      (.exception .bad_lexical_cast) (by decide) (by decide) 2
      (sampleFailingArgs.map FieldType.init) (by decide) (by decide)
      (fun j h1 h2 => by
        have hj : j = 1 := by omega
        subst hj
        decide)).1⟩

/-- The primary template on a terminated buffer: for a type without
specialisation and a column that is not NULL and whose buffer holds a C string,
the setter stores what `boost::lexical_cast` parses from that C string when the
parse succeeds, and when it fails throws `bad_lexical_cast` and leaves the
output field as it was. That C string is the text of the column only when the
library has delivered a text that is shorter than the buffer and holds no zero
byte; `bind.length` is never read. -/
theorem generic_setResult_parses {G : Type} (init : G) (lexical_cast : Bytes → Option G)
    (value : Value G) (c : Columns) (bind : MYSQL_BIND) (buf text : Bytes)
    (hnull : c.is_null bind = some false) (hbuf : c.buffer bind = some buf)
    (htext : c_str buf = some text) :
    (∀ g, lexical_cast text = some g →
      OutputBinderResultSetter.setResult (.other init lexical_cast) value c bind
        = (.other g, .normal)) ∧
    (lexical_cast text = none →
      OutputBinderResultSetter.setResult (.other init lexical_cast) value c bind
        = (value, .exception .bad_lexical_cast)) ∧
    ∀ (old : Bytes) (capacity : Nat), text.length < capacity → (0 : Byte) ∉ text →
      c_str (store text 0 capacity old) = some text := by
  refine ⟨?_, ?_, fun old capacity hlen h0 => c_str_store text old capacity hlen h0⟩
  · intro g hg
    simp [OutputBinderResultSetter.setResult, OutputBinderResultSetter_T.setResult, hnull, hbuf,
      htext, hg]
  · intro hg
    simp [OutputBinderResultSetter.setResult, OutputBinderResultSetter_T.setResult, hnull, hbuf,
      htext, hg]

/-- The primary template at terminated samples: the digit 7 parses to 7, the
text hello does not parse. -/
theorem generic_setResult_parses_example :
    OutputBinderResultSetter.setResult (.other 0 sampleDigit) (.other 3)
        sampleDigitColumn sampleTextBind = (.other 7, .normal) ∧
    OutputBinderResultSetter.setResult (.other 0 sampleDigit) (.other 3)
        { sampleDigitColumn with buffers := [hello ++ [0]] } sampleTextBind
      = (.other 3, .exception .bad_lexical_cast) :=
  ⟨(generic_setResult_parses 0 sampleDigit (.other 3) sampleDigitColumn sampleTextBind
      [55, 0, 0, 0] [55] (by decide) (by decide) (by decide)).1 7 (by decide),
   (generic_setResult_parses 0 sampleDigit (.other 3)
      { sampleDigitColumn with buffers := [hello ++ [0]] } sampleTextBind
      (hello ++ [0]) hello (by decide) (by decide) (by decide)).2.1 (by decide)⟩

/-- C15 at two columns of a type without specialisation, both not NULL. The
text 7, zero byte, x of three bytes does not parse as a digit, yet the setter
parses the C string before the zero byte, stores 7 and returns normally: no
`bad_lexical_cast`. A text of twenty letters, which the sample cast would
parse, fills the buffer so that no terminator follows it, and the read of
line 217 leaves the buffer: no parsed value. Both columns are what
`setResults` gets from a statement of one such row. -/
theorem generic_setResult_reads_c_string :
    sampleDigit [55, 0, 120] = none ∧
    (setResults [.other 0 sampleDigit] sampleDigitZeroStatement []).1.cursor.columns
        = sampleDigitZeroColumn ∧
    OutputBinderResultSetter.setResult (.other 0 sampleDigit) (.other 3)
        sampleDigitZeroColumn sampleTextBind = (.other 7, .normal) ∧
    (setResults [.other 0 sampleDigit] sampleDigitZeroStatement []).2 = .normal ∧
    (setResults [.other 0 sampleDigit] sampleDigitZeroStatement []).1.results
        = [[.other 7]] ∧
    sampleLength [97, 98, 99, 100, 101, 102, 103, 104, 105, 106, 107, 108, 109, 110, 111, 112,
        113, 114, 115, 116] = some 20 ∧
    (setResults [.other 0 sampleLength] sampleFullStatement []).1.cursor.columns
        = sampleFullColumn ∧
    (OutputBinderResultSetter.setResult (.other 0 sampleLength) (.other 3)
        sampleFullColumn sampleTextBind).2 = .undefined ∧
    (setResults [.other 0 sampleLength] sampleFullStatement []).2 = .undefined ∧
    (setResults [.other 0 sampleLength] sampleFullStatement []).1.results = [] := by
  decide!

/-- C16: for every wrapped type `T`, `setParameter` for `std::shared_ptr<T>`
gives, from the same descriptor, buffer and null flag, exactly the descriptor
and buffer that `setParameter` for `T` gives. -/
theorem shared_ptr_setParameter_forwards {G : Type} (T : FieldType G) (bind : MYSQL_BIND)
    (data : Nat) (buffer : Bytes) (isNullFlag : Nat) :
    OutputBinderParameterSetter.setParameter (.shared_ptr T) bind data buffer isNullFlag
      = OutputBinderParameterSetter.setParameter T bind data buffer isNullFlag := by
  rw [OutputBinderParameterSetter.setParameter]

/-- C17: in a call that gets past the count check and whose fetched rows all
assemble, the fetches made are those that answered row or truncated, then one
more, whose status is neither, and none after it; the rows appended are those
of the row fetches only; the call returns normally when that last status is
`MYSQL_NO_DATA` and otherwise throws `FetchError` with the diagnostic message
of the statement. -/
theorem setResults_stops_at_first_other_status {G : Type} (Args : List (FieldType G))
    (statement : MYSQL_STMT) (results : List (List (Value G)))
    (hc : statement.field_count = Args.length)
    (hrows : ∀ c ∈ fetchedColumns (describe Args statement.field_count).1 statement.answers,
      (assemble Args c).2 = .normal) :
    fetchStatuses (setResults Args statement results).1.trace
      = (statement.answers.map Fetch.status).takeWhile (fun st => decide (isRow st)) ++
          [stopStatus (statement.answers.map Fetch.status)] ∧
    ¬ isRow (stopStatus (statement.answers.map Fetch.status)) ∧
    (setResults Args statement results).1.results
      = results ++
        (fetchedColumns (describe Args statement.field_count).1 statement.answers).map
          (fun c => (assemble Args c).1) ∧
    (fetchedColumns (describe Args statement.field_count).1 statement.answers).length
      = ((statement.answers.map Fetch.status).takeWhile fun st => decide (isRow st)).length ∧
    (stopStatus (statement.answers.map Fetch.status) = MYSQL_NO_DATA →
      (setResults Args statement results).2 = .normal) ∧
    (stopStatus (statement.answers.map Fetch.status) ≠ MYSQL_NO_DATA →
      (setResults Args statement results).2
        = .exception (.FetchError statement.error)) := by
  obtain ⟨st0, k, rest, hrun, hcols, hstop, hfetch⟩ :=
    setResults_run_statuses Args statement results hc
  rw [← hcols] at hrows
  obtain ⟨h1, h2, h3⟩ := whileLoop_stops Args rest st0
    { trace := setupTrace st0, results := results, cursor := k } hrows
  obtain ⟨h4, _⟩ := whileLoop_results Args rest st0
    { trace := setupTrace st0, results := results, cursor := k } h1
  rcases hw : whileLoop Args rest st0
    { trace := setupTrace st0, results := results, cursor := k } with ⟨fs, s, st⟩
  rw [hw] at h1 h2 h3 h4
  simp only at h1 h2 h3 h4
  subst h1
  have hsetup : fetchStatuses (setupTrace st0) = [st0] := rfl
  rw [hsetup] at h3
  rw [hrun, hw]
  refine ⟨?_, stopStatus_not_row _, ?_, fetchedColumns_length _ _, ?_, ?_⟩
  · rw [← hfetch]
    simp only [throwIfFetchError]
    split <;>
      simp [State.log, mysql_stmt_close, fetchStatuses_append, fetchStatuses, h3]
  · rw [← hcols]
    simp only [throwIfFetchError]
    split <;> simp [State.log, mysql_stmt_close, h4]
  · intro hs
    rw [← hstop, ← h2] at hs
    simp [throwIfFetchError, hs]
  · intro hs
    rw [← hstop, ← h2] at hs
    simp [throwIfFetchError, hs]

/-- C17 at the sample statement whose second fetch reports a database error. -/
theorem setResults_stops_at_first_other_status_witness :
    fetchStatuses (setResults sampleArgs sampleErrorStatement []).1.trace = [0, 1] ∧
    (setResults sampleArgs sampleErrorStatement []).1.results
      = [[.numeric 42, .string hello, .nullptr]] ∧
    (setResults sampleArgs sampleErrorStatement []).2
      = .exception (.FetchError "Lost connection") :=
  ⟨(setResults_stops_at_first_other_status sampleArgs sampleErrorStatement [] rfl
      (by decide!)).1.trans (by decide!),
   (setResults_stops_at_first_other_status sampleArgs sampleErrorStatement [] rfl
      (by decide!)).2.2.1.trans (by decide!),
   (setResults_stops_at_first_other_status sampleArgs sampleErrorStatement [] rfl
      (by decide!)).2.2.2.2.2 (by decide)⟩

/-- C18: for `std::string` and for every type without specialisation,
`setParameter` sets the tag `MYSQL_TYPE_STRING`, gives an empty buffer 20
bytes, leaves a buffer that is not empty as it is, sets `buffer_length` to the
size the buffer then has, and applied again to its own result changes nothing. -/
theorem text_setParameter {G : Type} (T : FieldType G)
    (hT : T = .string ∨ ∃ init lexical_cast, T = .other init lexical_cast)
    (bind : MYSQL_BIND) (data : Nat) (buffer : Bytes) (isNullFlag : Nat) :
    (OutputBinderParameterSetter.setParameter T bind data buffer isNullFlag).1.buffer_type
      = .MYSQL_TYPE_STRING ∧
    (buffer = [] →
      (OutputBinderParameterSetter.setParameter T bind data buffer isNullFlag).2
        = List.replicate 20 0) ∧
    (buffer ≠ [] →
      (OutputBinderParameterSetter.setParameter T bind data buffer isNullFlag).2 = buffer) ∧
    (OutputBinderParameterSetter.setParameter T bind data buffer isNullFlag).1.buffer_length
      = (OutputBinderParameterSetter.setParameter T bind data buffer isNullFlag).2.length ∧
    OutputBinderParameterSetter.setParameter T
        (OutputBinderParameterSetter.setParameter T bind data buffer isNullFlag).1 data
        (OutputBinderParameterSetter.setParameter T bind data buffer isNullFlag).2 isNullFlag
      = OutputBinderParameterSetter.setParameter T bind data buffer isNullFlag := by
  have key : ∀ b d f n, OutputBinderParameterSetter.setParameter T b d f n
      = OutputBinderParameterSetter_T.setParameter b d f n := by
    intro b d f n
    rcases hT with h | ⟨init, lc, h⟩ <;> rw [h, OutputBinderParameterSetter.setParameter]
  simp only [key]
  unfold OutputBinderParameterSetter_T.setParameter
  by_cases hb : buffer = []
  · subst hb
    simp [resize]
  · have hl : buffer.length ≠ 0 := by
      intro h0
      exact hb (List.length_eq_zero.1 h0)
    simp [hb, hl]

/-- C18 at a sample: the `std::string` setter on a fresh descriptor and an
empty buffer. -/
theorem text_setParameter_witness :
    (OutputBinderParameterSetter.setParameter (.string : FieldType Unit) MYSQL_BIND.zero 0 []
        0).1.buffer_type = .MYSQL_TYPE_STRING ∧
    (OutputBinderParameterSetter.setParameter (.string : FieldType Unit) MYSQL_BIND.zero 0 []
        0).2 = List.replicate 20 0 :=
  ⟨(text_setParameter (.string : FieldType Unit) (Or.inl rfl) MYSQL_BIND.zero 0 [] 0).1,
   (text_setParameter (.string : FieldType Unit) (Or.inl rfl) MYSQL_BIND.zero 0 [] 0).2.1 rfl⟩

/-- C19: for a row shape of N fields against N columns, descriptor
construction ends normally with four vectors of N entries in which, for every
position `i`, descriptor `i` is the result of one `setParameter` of the type
declared at `i` on the fresh descriptor, the fresh buffer and the null flag of
position `i`, then wired to length slot `i`, and buffer `i` is the buffer of
that call: descriptor `i` points at buffer `i`, null flag `i` and length `i`. -/
theorem describe_wires_each_column {G : Type} (Args : List (FieldType G)) :
    ∃ c, describe Args Args.length = (c, .normal) ∧
      c.parameters.length = Args.length ∧ c.buffers.length = Args.length ∧
      c.lengths.length = Args.length ∧ c.nullFlags.length = Args.length ∧
      ∀ i T, Args[i]? = some T →
        c.parameters[i]? = some
          { (OutputBinderParameterSetter.setParameter T MYSQL_BIND.zero i [] i).1 with
            length := some i } ∧
        c.buffers[i]?
          = some (OutputBinderParameterSetter.setParameter T MYSQL_BIND.zero i [] i).2 ∧
        ∃ bind, c.parameters[i]? = some bind ∧
          bind.buffer = some i ∧ bind.is_null = some i ∧ bind.length = some i :=
  describe_spec Args

/-- C20: when the argument-count check passes, descriptor construction ends
normally with four vectors of N entries, the assembly of a row from N
descriptors does not throw `out_of_range`, and neither does the call as a
whole: every index `bindParameters`, the length loop and `setResultTuple` pass
to `at` is below the size of the vector. -/
theorem setResults_indices_in_range {G : Type} (Args : List (FieldType G))
    (statement : MYSQL_STMT) (results : List (List (Value G)))
    (h : statement.field_count = Args.length) :
    (describe Args statement.field_count).2 = .normal ∧
    (describe Args statement.field_count).1.parameters.length = Args.length ∧
    (describe Args statement.field_count).1.buffers.length = Args.length ∧
    (describe Args statement.field_count).1.lengths.length = Args.length ∧
    (describe Args statement.field_count).1.nullFlags.length = Args.length ∧
    (∀ c : Columns, c.parameters.length = Args.length →
      (assemble Args c).2 ≠ .exception .out_of_range) ∧
    (setResults Args statement results).2 ≠ .exception .out_of_range := by
  obtain ⟨d, hd, hp, hb, hl, hn, _⟩ := describe_spec Args
  have hasm : ∀ c : Columns, c.parameters.length = Args.length →
      (assemble Args c).2 ≠ .exception .out_of_range := by
    intro c hc
    exact setResultTuple_in_range Args c Args.length _ (by omega)
  rw [h, hd]
  refine ⟨rfl, hp, hb, hl, hn, hasm, ?_⟩
  intro hout
  rcases setResults_exception_source Args statement results _ hout with h1 | h1 | ⟨_, c, hc, h1⟩
  · cases h1
  · cases h1
  · rw [h, hd] at hc
    exact hasm c (by rw [fetchedColumns_parameters _ _ c hc]; exact hp) h1

/-- C20 at the sample statement of two rows. -/
theorem setResults_indices_in_range_witness :
    (describe sampleArgs sampleStatement.field_count).2 = .normal ∧
    (setResults sampleArgs sampleStatement []).2 ≠ .exception .out_of_range :=
  ⟨(setResults_indices_in_range sampleArgs sampleStatement [] rfl).1,
   (setResults_indices_in_range sampleArgs sampleStatement [] rfl).2.2.2.2.2.2⟩

end OutputBinder
